import Mathlib

/-!
Shallow embedding of the spacing-guild trade-route library.

The embedding follows the two source modules:
  - the Mentat class (pure calculations: distance, fuel, pricing, profit);
  - the Navigator class (stateful engine: derived current-location snapshot,
    ranked trade options, and the navigate query).

Modelling conventions:
  - JavaScript numbers are modelled as exact rationals; the square root in the
    distance formula forces the distance (and the profit-per-distance-unit
    score derived from it) into the reals.
  - JavaScript `null` and `undefined` are both modelled as `Option.none`.
  - Code that can throw is modelled in `Except JsError`; a thrown `TypeError`
    (property access on `null`/`undefined`) is `JsError.typeError`, and each of
    the three `throw new Error(...)` sites of `navigate` gets its own
    constructor (the message strings carry no further structure).
  - `Array.prototype.sort` with the descending comparator of `sortByKey` is
    modelled as a stable descending sort (`List.insertionSort`); all concrete
    scenarios below use pairwise distinct sort keys, so tie-breaking never
    matters for the theorems in this file.
-/

namespace SpacingGuild

/-- One tradable commodity at one marketplace (interface IGood). -/
structure Good where
  quantityAvailable : ℚ
  volumePerUnit : ℚ
  pricePerUnit : ℚ
  spread : ℚ
  purchasePricePerUnit : ℚ
  sellPricePerUnit : ℚ
  symbol : String
deriving DecidableEq

/-- A point in space, possibly hosting a marketplace (interface ILocation).
The optional `marketplace` field is `none` when the JS object has no such
key (or has it `undefined`). -/
structure Location where
  symbol : String
  type : String
  name : String
  x : ℚ
  y : ℚ
  marketplace : Option (List Good)
deriving DecidableEq

/-- One cargo line of a route (interface ICargo). -/
structure Cargo where
  good : String
  quantity : ℚ
  totalVolume : ℚ
deriving DecidableEq

/-- The ship snapshot (interface IShip). The source field named `class` is a
Lean keyword and is rendered here as `shipClass`; the algorithm never reads
it (the class switch in `calculateFuelToTravel` reads `ship.type`). -/
structure Ship where
  id : String
  location : String
  x : ℚ
  y : ℚ
  cargo : List Cargo
  spaceAvailable : ℚ
  type : String
  shipClass : String
  maxCargo : ℚ
  speed : ℚ
  manufacturer : String
  plating : ℚ
  weapons : ℚ
deriving DecidableEq

/-- A candidate arbitrage (interface ITrade). -/
structure Trade where
  destination : Location
  localGood : Good
  destinationGood : Good
deriving DecidableEq

/-- A ranked candidate (interface ITradeOption).  The score lives in the
reals because it is a quotient by a euclidean distance. -/
structure TradeOption where
  trade : Trade
  profitPerDU : ℝ

/-- The navigate result (interface ITradeRoute). -/
structure TradeRoute where
  destination : Location
  cargo : List Cargo
deriving DecidableEq

/-- The navigate parameter record (interface INavigationParameters); at run
time either field can be absent from the JS object, hence the options. -/
structure NavigationParameters where
  range : Option ℚ
  fuelMargin : Option ℚ

/-- Failure modes of the JS code: a runtime TypeError (property access on
`null`/`undefined`) and the three explicit `throw new Error(...)` sites of
`navigate`, identified by throw site rather than by message text. -/
inductive JsError
  | typeError
  | noProfitableTrades
  | noTradesInRange
  | cannotFuel
deriving DecidableEq

/-- Modelled from the spec: the `ShipClass` enum lives in the enums module,
which is not among the provided sources; only its three member names appear
in the class switch of `calculateFuelToTravel`.  The values are the obvious
distinct ship-class identifiers; no theorem below depends on the concrete
strings, only on the bracket structure of the switch. -/
def ShipClass.HM_MK_III : String := "HM-MK-III"

/-- Modelled from the spec: second `ShipClass` enum member. -/
def ShipClass.GR_MK_III : String := "GR-MK-III"

/-- Modelled from the spec: third `ShipClass` enum member. -/
def ShipClass.GR_MK_II : String := "GR-MK-II"

/-! The Mentat class: all methods are pure static calculations. -/

namespace Mentat

/-- calculateDistance: sqrt(abs((ax-bx)^2) + abs((ay-by)^2)). -/
noncomputable def calculateDistance (ax ay bx by' : ℚ) : ℝ :=
  Real.sqrt (|((ax : ℝ) - bx) ^ 2| + |((ay : ℝ) - by') ^ 2|)

/-- calculateLocationDistance: distance between the coordinates of two locations. -/
noncomputable def calculateLocationDistance (a b : Location) : ℝ :=
  calculateDistance a.x a.y b.x b.y

/-- calculateFuelToTravel: round(round(distance) * multiplier) + penalty + 1,
with multiplier and penalty from the switch on ship.type, the penalty applying
only when the origin location is of type PLANET. -/
noncomputable def calculateFuelToTravel (ship : Ship) (location destination : Location) : ℤ :=
  let isPlanet := location.type = "PLANET"
  let multiplier : ℚ :=
    if ship.type = ShipClass.HM_MK_III then 0.188 else 0.25
  let penalty : ℤ :=
    if ship.type = ShipClass.HM_MK_III then (if isPlanet then 1 else 0)
    else if ship.type = ShipClass.GR_MK_III then (if isPlanet then 4 else 0)
    else if ship.type = ShipClass.GR_MK_II then (if isPlanet then 3 else 0)
    else (if isPlanet then 2 else 0)
  round ((round (calculateLocationDistance location destination) : ℚ) * multiplier)
    + penalty + 1

/-- The quantity of FUEL already held in the ship cargo:
ship.cargo.filter(c => c.good === "FUEL")[0]?.quantity || 0. -/
def heldFuel (ship : Ship) : ℚ :=
  ((((ship.cargo.filter (fun c => c.good = "FUEL")).head?).map Cargo.quantity).getD 0)

/-- calculateFuelQuantity: the fuel still to buy, with a percentage margin.
The third JS parameter defaults to 0 when the caller passes `undefined`;
callers of this Lean function supply that default explicitly. -/
def calculateFuelQuantity (ship : Ship) (fuelToTravel : ℚ) (margin : ℚ) : ℤ :=
  let currentFuel : ℚ := heldFuel ship
  let quantity : ℚ := if currentFuel ≥ fuelToTravel then 0 else fuelToTravel - currentFuel
  ⌈quantity * (1 + 0.01 * margin)⌉

/-- calculatePricePerVolume: price / volume. -/
def calculatePricePerVolume (pricePerUnit volumePerUnit : ℚ) : ℚ :=
  pricePerUnit / volumePerUnit

/-- calculateGoodProfitPerVol: sell price per volume at the destination minus
purchase price per volume at the current location. -/
def calculateGoodProfitPerVol (a b : Good) : ℚ :=
  calculatePricePerVolume a.sellPricePerUnit a.volumePerUnit
    - calculatePricePerVolume b.purchasePricePerUnit b.volumePerUnit

/-- calculateGoodProfit: gross gain of selling a good. -/
def calculateGoodProfit (good : Good) (amount : ℚ) : ℚ :=
  good.sellPricePerUnit * amount

/-- calculateGoodCost: cost of buying a good. -/
def calculateGoodCost (good : Good) (amount : ℚ) : ℚ :=
  good.purchasePricePerUnit * amount

/-- calculateFuelToTravelCost: amount * unitCost. -/
def calculateFuelToTravelCost (amount unitCost : ℚ) : ℚ :=
  amount * unitCost

/-- calculateCargoVolume: amount * volume per unit. -/
def calculateCargoVolume (good : Good) (amount : ℚ) : ℚ :=
  amount * good.volumePerUnit

/-- calculateGoodQuantity: Math.floor(Math.floor(space / volumePerUnit)),
the maximum whole units fitting in the space. -/
def calculateGoodQuantity (space volumePerUnit : ℚ) : ℤ :=
  ⌊((⌊space / volumePerUnit⌋ : ℤ) : ℚ)⌋

/-- calculateProfitPerDU: the ranking metric.  Zero when the distance is zero
(the JS code guards with the truthiness of the distance); otherwise
(profitPerVolume * (spaceAvailable - fuel) - fuelCost) / distance. -/
noncomputable def calculateProfitPerDU (aGood bGood : Good) (ship : Ship)
    (location destination : Location) (fuelUnitCost : ℚ) : ℝ :=
  let distance : ℝ := calculateLocationDistance location destination
  if distance ≠ 0 then
    let fuel : ℤ := calculateFuelToTravel ship location destination
    let fuelCost : ℚ := calculateFuelToTravelCost (fuel : ℚ) fuelUnitCost
    let goodProfitPerVol : ℚ := calculateGoodProfitPerVol aGood bGood
    let profit : ℚ := goodProfitPerVol * (ship.spaceAvailable - (fuel : ℚ)) - fuelCost
    (profit : ℝ) / distance
  else 0

/-- calculateFuelToTravelVolume: fuel has unit volume 1, hardcoded. -/
def calculateFuelToTravelVolume (amount : ℚ) : ℚ :=
  amount * 1

/-- calculateGoodVolume: amount * volume per unit. -/
def calculateGoodVolume (amount : ℚ) (good : Good) : ℚ :=
  amount * good.volumePerUnit

/-- calculateRemainingSpaceAfterRefuel: spaceAvailable minus the fuel volume. -/
def calculateRemainingSpaceAfterRefuel (ship : Ship) (fuelQuantity : ℚ) : ℚ :=
  ship.spaceAvailable - calculateFuelToTravelVolume fuelQuantity

/-- validateRange: range strictly greater than the distance from the ship
coordinates to the location. -/
def validateRange (ship : Ship) (range : ℚ) (location : Location) : Prop :=
  (range : ℝ) > calculateDistance ship.x ship.y location.x location.y

noncomputable instance (ship : Ship) (range : ℚ) (location : Location) :
    Decidable (validateRange ship range location) :=
  Real.decidableLT _ _

/-- sortByKey, specialised to the single call site (trade options keyed by
profitPerDU): a stable sort with larger keys first. -/
noncomputable def sortByKey (arr : List TradeOption) : List TradeOption :=
  List.insertionSort (fun a b => b.profitPerDU ≤ a.profitPerDU) arr

end Mentat

/-! The Navigator class.  The mutable instance is modelled as a record; each
method becomes a function from the record (or its relevant fields) that
returns the updated record inside `Except JsError` when the JS method can
throw. -/

/-- The engine state: the private fields of the Navigator class.  The field
`inited` mirrors the private `_initialized` flag. -/
structure Navigator where
  inited : Bool
  locations : List Location
  ship : Ship
  currentLocation : Option Location
  currentMarketplace : Option (List Good)
  currentFuelUnitCost : Option ℚ
  tradeOptions : Option (List TradeOption)

/-- getCurrentLocation: first location whose symbol equals ship.location,
else null. -/
def getCurrentLocation (locations : List Location) (ship : Ship) : Option Location :=
  locations.find? (fun l => ship.location = l.symbol)

/-- getCurrentMarketplace: the marketplace field of the first matching
location (which may itself be absent), else null; absent and null collapse
to `none`. -/
def getCurrentMarketplace (locations : List Location) (ship : Ship) : Option (List Good) :=
  (locations.find? (fun l => ship.location = l.symbol)).bind Location.marketplace

/-- getCurrentFuelUnitCost: iterates over the current marketplace looking for
the FUEL good; reading `.length` of a `null`/`undefined` marketplace throws a
TypeError.  Returns the purchase price of FUEL, or null when FUEL is not
listed. -/
def getCurrentFuelUnitCost (locations : List Location) (ship : Ship) :
    Except JsError (Option ℚ) :=
  match getCurrentMarketplace locations ship with
  | none => .error .typeError
  | some marketplace =>
      .ok ((marketplace.find? (fun g => g.symbol = "FUEL")).map Good.purchasePricePerUnit)

/-- setProperties: recompute the three derived fields.  The only throwing
step is the fuel-unit-cost lookup. -/
def setProperties (locations : List Location) (ship : Ship) :
    Except JsError (Option Location × Option (List Good) × Option ℚ) := do
  let fuelUnitCost ← getCurrentFuelUnitCost locations ship
  .ok (getCurrentLocation locations ship, getCurrentMarketplace locations ship, fuelUnitCost)

/-- The candidate enumeration inside sortTradeOptions, before scoring: for
every other location with a nonempty marketplace and every good it lists,
pair it with the same-symbol good of the current marketplace when that local
good has positive available quantity.  Produces
(destination, destinationGood, localGood) triples in source iteration order. -/
def tradeCandidates (locations : List Location) (currentLocation : Location) :
    List (Location × Good × Good) :=
  locations.flatMap (fun loc =>
    if loc.symbol = currentLocation.symbol then []
    else
      match loc.marketplace with
      | none => []
      | some marketplace =>
          if marketplace.length = 0 then []
          else
            marketplace.filterMap (fun destinationGood =>
              match (currentLocation.marketplace.getD []).find?
                  (fun g => g.symbol = destinationGood.symbol) with
              | none => none
              | some localGood =>
                  if 0 < localGood.quantityAvailable then
                    some (loc, destinationGood, localGood)
                  else none))

/-- sortTradeOptions: rebuild the ranked trade-option list.  Faithful to the
source: when the current location is null the marketplace read throws; when
its marketplace is absent or empty the method returns WITHOUT assigning the
trade-option field (the previous value survives); the per-iteration
getCurrentFuelUnitCost call throws only if at least one candidate iteration
happens; a null fuel unit cost participates in the profit arithmetic as 0
(JS null coerces to 0 under multiplication). -/
noncomputable def sortTradeOptions (locations : List Location) (ship : Ship)
    (currentLocation : Option Location) (prev : Option (List TradeOption)) :
    Except JsError (Option (List TradeOption)) :=
  match currentLocation with
  | none => .error .typeError
  | some cl =>
      match cl.marketplace with
      | none => .ok prev
      | some mkt =>
          if mkt.length = 0 then .ok prev
          else
            let candidates := tradeCandidates locations cl
            match getCurrentFuelUnitCost locations ship with
            | .error e =>
                if candidates.length = 0 then .ok (some (Mentat.sortByKey [])) else .error e
            | .ok fuelUnitCost =>
                let trades := candidates.filterMap (fun c =>
                  let profitPerDU := Mentat.calculateProfitPerDU c.2.1 c.2.2 ship cl c.1
                    (fuelUnitCost.getD 0)
                  if 0 < profitPerDU then
                    some { trade := { destination := c.1, localGood := c.2.2,
                                      destinationGood := c.2.1 },
                           profitPerDU := profitPerDU }
                  else none)
                .ok (some (Mentat.sortByKey trades))

/-- The constructor: store locations (the engine is not yet initialized, so
updateLocationsData only stores), store the ship and recompute the derived
fields, run the initial build, then raise the initialized flag. -/
noncomputable def mkNavigator (locations : List Location) (ship : Ship) :
    Except JsError Navigator := do
  let props ← setProperties locations ship
  let options ← sortTradeOptions locations ship props.1 none
  .ok { inited := true, locations := locations, ship := ship,
        currentLocation := props.1, currentMarketplace := props.2.1,
        currentFuelUnitCost := props.2.2, tradeOptions := options }

/-- updateLocationsData: replace the location list; once initialized, also
recompute the derived fields and rebuild the ranked list. -/
noncomputable def updateLocationsData (nav : Navigator) (locations : List Location) :
    Except JsError Navigator :=
  if nav.inited then do
    let props ← setProperties locations nav.ship
    let options ← sortTradeOptions locations nav.ship props.1 nav.tradeOptions
    .ok { nav with
        locations := locations, currentLocation := props.1,
        currentMarketplace := props.2.1, currentFuelUnitCost := props.2.2,
        tradeOptions := options }
  else .ok { nav with locations := locations }

/-- updateShipData: replace the ship and always recompute the derived fields;
rebuild the ranked list only once initialized. -/
noncomputable def updateShipData (nav : Navigator) (ship : Ship) :
    Except JsError Navigator := do
  let props ← setProperties nav.locations ship
  if nav.inited then do
    let options ← sortTradeOptions nav.locations ship props.1 nav.tradeOptions
    .ok { nav with
        ship := ship, currentLocation := props.1,
        currentMarketplace := props.2.1, currentFuelUnitCost := props.2.2,
        tradeOptions := options }
  else
    .ok { nav with
        ship := ship, currentLocation := props.1,
        currentMarketplace := props.2.1, currentFuelUnitCost := props.2.2 }

/-- The available FUEL quantity of the local market as read in the navigate
fuel loop: currentMarketplace.filter(g => g.symbol === "FUEL")[0]?.quantityAvailable || 0. -/
def localFuelAvailable (marketplace : List Good) : ℚ :=
  ((((marketplace.filter (fun g => g.symbol = "FUEL")).head?).map
    Good.quantityAvailable).getD 0)

/-- The fuel quantity the navigate loop computes for one candidate:
calculateFuelToTravel from the current location to its destination, then
calculateFuelQuantity with the margin parameter. -/
noncomputable def requiredFuel (ship : Ship) (currentLocation : Location) (margin : ℚ)
    (option : TradeOption) : ℤ :=
  Mentat.calculateFuelQuantity ship
    ((Mentat.calculateFuelToTravel ship currentLocation option.trade.destination : ℤ) : ℚ)
    margin

/-- The fuel-feasibility loop of navigate, with its exact splice semantics:
the loop walks the array by index; an infeasible candidate is removed with
splice(i, 1) and the subsequent i++ SKIPS the element that slides into slot i.
The first component of the result is the array as the loop leaves it (splices
included); the second is the chosen candidate with its fuel quantity, if any. -/
noncomputable def fuelScan (f : TradeOption → ℤ) (avail space : ℚ) :
    List TradeOption → List TradeOption → List TradeOption × Option (TradeOption × ℤ)
  | kept, [] => (kept, none)
  | kept, [t] =>
      if avail < ((f t : ℤ) : ℚ) then (kept, none)
      else if space < ((f t : ℤ) : ℚ) then (kept, none)
      else (kept ++ [t], some (t, f t))
  | kept, t :: s :: rest =>
      if avail < ((f t : ℤ) : ℚ) then fuelScan f avail space (kept ++ [s]) rest
      else if space < ((f t : ℤ) : ℚ) then fuelScan f avail space (kept ++ [s]) rest
      else (kept ++ t :: s :: rest, some (t, f t))

/-- The cargo-fill loop of navigate: walk the candidates restricted to the
chosen destination in ranked order; while space remains, buy as many whole
units of the local good as fit (capped at its available quantity) and append
one cargo line per candidate. -/
def fillCargo : List TradeOption → ℚ → List Cargo
  | [], _ => []
  | t :: rest, remainingSpace =>
      if remainingSpace ≤ 0 then []
      else
        let floorQuantity : ℤ :=
          Mentat.calculateGoodQuantity remainingSpace t.trade.localGood.volumePerUnit
        let goodQuantity : ℚ :=
          if (floorQuantity : ℚ) > t.trade.localGood.quantityAvailable then
            t.trade.localGood.quantityAvailable
          else (floorQuantity : ℚ)
        let goodVolume : ℚ := Mentat.calculateGoodVolume goodQuantity t.trade.localGood
        { good := t.trade.localGood.symbol, quantity := goodQuantity,
          totalVolume := goodVolume } :: fillCargo rest (remainingSpace - goodVolume)

/-- The route assembly of navigate once a destination is fixed: restrict the
(post-splice) candidate array to the chosen destination, start the cargo with
the FUEL line, and fill the remaining space. -/
noncomputable def buildRoute (ship : Ship) (finalTrades : List TradeOption)
    (chosen : TradeOption) (fuelQuantity : ℤ) : TradeRoute :=
  let destination := chosen.trade.destination
  let sameDestination := finalTrades.filter
    (fun o => o.trade.destination.symbol = destination.symbol)
  let fuelVolume : ℚ := Mentat.calculateFuelToTravelVolume ((fuelQuantity : ℤ) : ℚ)
  let remainingSpace : ℚ :=
    Mentat.calculateRemainingSpaceAfterRefuel ship ((fuelQuantity : ℤ) : ℚ)
  { destination := destination,
    cargo := { good := "FUEL", quantity := ((fuelQuantity : ℤ) : ℚ),
               totalVolume := fuelVolume } :: fillCargo sameDestination remainingSpace }

/-- The tail of navigate after the empty-list and range checks: read the
current location and marketplace (a TypeError if either is null, as the first
loop iteration dereferences them), run the fuel-feasibility scan, persist the
splices back into the stored array unless the scan ran on the fresh array the
range filter produced, and either fail or assemble the route. -/
noncomputable def navigateFueled (nav : Navigator) (strict : Bool) (margin : ℚ)
    (trades : List TradeOption) (ranged : Bool) :
    Except JsError (Option TradeRoute) × Navigator :=
  match nav.currentLocation, nav.currentMarketplace with
  | some cl, some mkt =>
      match fuelScan (requiredFuel nav.ship cl margin) (localFuelAvailable mkt)
          nav.ship.spaceAvailable [] trades with
      | (finalTrades, chosen) =>
          let updated : Navigator :=
            if ranged then nav else { nav with tradeOptions := some finalTrades }
          match chosen with
          | none =>
              (if strict then .error .cannotFuel else .ok none, updated)
          | some (t, fuelQuantity) =>
              (.ok (some (buildRoute nav.ship finalTrades t fuelQuantity)), updated)
  | _, _ => (.error .typeError, nav)

/-- navigate: the central query.  `params` is `none` when the JS call omits
the argument entirely (then the documented defaults range 0 / fuelMargin 5
apply); a present params object contributes `undefined` for each absent
field, which is falsy for the range test and picks up calculateFuelQuantity's
own default 0 for the margin. -/
noncomputable def navigate (nav : Navigator) (params : Option NavigationParameters)
    (strict : Bool) : Except JsError (Option TradeRoute) × Navigator :=
  let p := params.getD { range := some 0, fuelMargin := some 5 }
  let margin : ℚ := p.fuelMargin.getD 0
  match nav.tradeOptions with
  | none => (.error .typeError, nav)
  | some trades0 =>
      if trades0.length = 0 then
        (if strict then .error .noProfitableTrades else .ok none, nav)
      else
        if p.range.getD 0 ≠ 0 then
          let trades1 := trades0.filter
            (fun o => decide (Mentat.validateRange nav.ship (p.range.getD 0)
              o.trade.destination))
          if trades1.length = 0 then
            (if strict then .error .noTradesInRange else .ok none, nav)
          else navigateFueled nav strict margin trades1 true
        else navigateFueled nav strict margin trades0 false

/-! General lemmas about the embedded operations. -/

/-- Rounding a nonnegative number is nonnegative. -/
lemma round_nonneg {α : Type*} [LinearOrderedField α] [FloorRing α]
    (x : α) (h : 0 ≤ x) : 0 ≤ round x := by
  rw [round_eq]
  have h2 : (0 : ℤ) = ⌊(1 / 2 : α)⌋ := by norm_num
  rw [h2]
  exact Int.floor_le_floor (by linarith)

/-- Evaluation helper: a concrete euclidean distance whose square root is
exact. -/
lemma calculateDistance_eq (ax ay bx by' e : ℚ)
    (h : (ax - bx) ^ 2 + (ay - by') ^ 2 = e ^ 2) (he : 0 ≤ e) :
    Mentat.calculateDistance ax ay bx by' = (e : ℚ) := by
  unfold Mentat.calculateDistance
  rw [abs_of_nonneg (sq_nonneg _), abs_of_nonneg (sq_nonneg _)]
  have h2 : ((ax : ℝ) - bx) ^ 2 + ((ay : ℝ) - by') ^ 2 = (e : ℝ) ^ 2 := by
    have := congrArg (fun q : ℚ => (q : ℝ)) h
    push_cast at this
    simpa using this
  rw [h2, Real.sqrt_sq (by exact_mod_cast he)]

/-- The double floor of calculateGoodQuantity collapses to a single floor. -/
lemma calculateGoodQuantity_eq (space volumePerUnit : ℚ) :
    Mentat.calculateGoodQuantity space volumePerUnit = ⌊space / volumePerUnit⌋ := by
  simp [Mentat.calculateGoodQuantity]

/-- A chosen candidate of the fuel scan carries its own fuel quantity and
passed both feasibility checks, and the final array only contains elements of
the initial one. -/
lemma fuelScan_some_spec (f : TradeOption → ℤ) (avail space : ℚ) :
    ∀ (kept todo fin : List TradeOption) (t : TradeOption) (fq : ℤ),
      fuelScan f avail space kept todo = (fin, some (t, fq)) →
      fq = f t ∧ ¬ avail < ((fq : ℤ) : ℚ) ∧ ¬ space < ((fq : ℤ) : ℚ) ∧
        ∀ x ∈ fin, x ∈ kept ∨ x ∈ todo := by
  intro kept todo
  induction kept, todo using fuelScan.induct f avail space with
  | case1 kept => intro fin t fq h; simp [fuelScan] at h
  | case2 kept t ha =>
      intro fin t' fq h
      rw [fuelScan, if_pos ha] at h
      injection h with h1 h2
      injection h2
  | case3 kept t ha hs =>
      intro fin t' fq h
      rw [fuelScan, if_neg ha, if_pos hs] at h
      injection h with h1 h2
      injection h2
  | case4 kept t ha hs =>
      intro fin t' fq h
      rw [fuelScan, if_neg ha, if_neg hs] at h
      injection h with hfin hsome
      injection hsome with hpair
      injection hpair with ht hfq
      subst hfin; subst ht; subst hfq
      refine ⟨rfl, ha, hs, ?_⟩
      intro x hx
      rcases List.mem_append.mp hx with h1 | h1
      · exact Or.inl h1
      · exact Or.inr h1
  | case5 kept t s rest ha ih =>
      intro fin t' fq h
      rw [fuelScan, if_pos ha] at h
      obtain ⟨h1, h2, h3, h4⟩ := ih fin t' fq h
      refine ⟨h1, h2, h3, ?_⟩
      intro x hx
      rcases h4 x hx with h5 | h5
      · rcases List.mem_append.mp h5 with h6 | h6
        · exact Or.inl h6
        · refine Or.inr ?_
          simp only [List.mem_singleton] at h6
          simp [h6]
      · exact Or.inr (List.mem_cons_of_mem _ (List.mem_cons_of_mem _ h5))
  | case6 kept t s rest ha hs ih =>
      intro fin t' fq h
      rw [fuelScan, if_neg ha, if_pos hs] at h
      obtain ⟨h1, h2, h3, h4⟩ := ih fin t' fq h
      refine ⟨h1, h2, h3, ?_⟩
      intro x hx
      rcases h4 x hx with h5 | h5
      · rcases List.mem_append.mp h5 with h6 | h6
        · exact Or.inl h6
        · refine Or.inr ?_
          simp only [List.mem_singleton] at h6
          simp [h6]
      · exact Or.inr (List.mem_cons_of_mem _ (List.mem_cons_of_mem _ h5))
  | case7 kept t s rest ha hs =>
      intro fin t' fq h
      rw [fuelScan, if_neg ha, if_neg hs] at h
      injection h with hfin hsome
      injection hsome with hpair
      injection hpair with ht hfq
      subst hfin; subst ht; subst hfq
      refine ⟨rfl, ha, hs, ?_⟩
      intro x hx
      rcases List.mem_append.mp hx with h1 | h1
      · exact Or.inl h1
      · exact Or.inr h1

/-- The volumes appended by the cargo-fill loop never exceed the space it
starts with, as long as every candidate good has positive unit volume and
nonnegative availability. -/
lemma fillCargo_sum_le (l : List TradeOption) (rs : ℚ) (h0 : 0 ≤ rs)
    (hwf : ∀ t ∈ l, 0 < t.trade.localGood.volumePerUnit ∧
      0 ≤ t.trade.localGood.quantityAvailable) :
    ((fillCargo l rs).map Cargo.totalVolume).sum ≤ rs := by
  induction l generalizing rs with
  | nil => simpa [fillCargo] using h0
  | cons t rest ih =>
      rw [fillCargo]
      by_cases hrs : rs ≤ 0
      · simpa [hrs] using h0
      · push_neg at hrs
        rw [if_neg (by linarith)]
        obtain ⟨hv, hqa⟩ := hwf t (by simp)
        set v := t.trade.localGood.volumePerUnit with hvdef
        set qa := t.trade.localGood.quantityAvailable with hqadef
        rw [calculateGoodQuantity_eq]
        set g : ℚ := ((⌊rs / v⌋ : ℤ) : ℚ) with hgdef
        have hg0 : 0 ≤ g := by
          have h1 : (0 : ℤ) ≤ ⌊rs / v⌋ := Int.floor_nonneg.mpr (by positivity)
          rw [hgdef]
          exact_mod_cast h1
        have hgrs : g * v ≤ rs := by
          have h1 : g ≤ rs / v := Int.floor_le _
          calc g * v ≤ (rs / v) * v := by
                exact mul_le_mul_of_nonneg_right h1 (le_of_lt hv)
            _ = rs := div_mul_cancel₀ rs (ne_of_gt hv)
        set q : ℚ := if g > qa then qa else g with hqdef
        have hq0 : 0 ≤ q := by
          rw [hqdef]; split
          · exact hqa
          · exact hg0
        have hqg : q ≤ g := by
          rw [hqdef]; split
          next hcap => linarith
          next hcap => exact le_rfl
        have hvol0 : 0 ≤ q * v := mul_nonneg hq0 (le_of_lt hv)
        have hvol : q * v ≤ rs := by
          calc q * v ≤ g * v := mul_le_mul_of_nonneg_right hqg (le_of_lt hv)
            _ ≤ rs := hgrs
        have hrec := ih (rs - Mentat.calculateGoodVolume q t.trade.localGood)
          (by simp [Mentat.calculateGoodVolume, ← hvdef]; linarith)
          (fun x hx => hwf x (by simp [hx]))
        simp only [List.map_cons, List.sum_cons, Mentat.calculateGoodVolume, ← hvdef]
        simp only [Mentat.calculateGoodVolume, ← hvdef] at hrec
        linarith

/-- Well-formedness of a trade option as far as the cargo loop is concerned:
its local good has positive unit volume and nonnegative availability (the
data-model invariants of the spec). -/
def wfOption (t : TradeOption) : Prop :=
  0 < t.trade.localGood.volumePerUnit ∧ 0 ≤ t.trade.localGood.quantityAvailable

/-- A successful route out of the fuel scan and route assembly respects both
resource bounds: the FUEL line quantity is bounded by the locally available
FUEL, and the cargo volumes sum to at most the available space. -/
lemma navigateFueled_route_spec (nav : Navigator) (strict : Bool) (margin : ℚ)
    (trades : List TradeOption) (ranged : Bool) (route : TradeRoute) (nav2 : Navigator)
    (hwf : ∀ t ∈ trades, wfOption t)
    (h : navigateFueled nav strict margin trades ranged = (.ok (some route), nav2)) :
    ∃ mkt : List Good, ∃ fq : ℤ, ∃ rest : List Cargo,
      nav.currentMarketplace = some mkt ∧
      route.cargo = { good := "FUEL", quantity := ((fq : ℤ) : ℚ),
                      totalVolume := Mentat.calculateFuelToTravelVolume ((fq : ℤ) : ℚ) }
        :: rest ∧
      ((fq : ℤ) : ℚ) ≤ localFuelAvailable mkt ∧
      (route.cargo.map Cargo.totalVolume).sum ≤ nav.ship.spaceAvailable := by
  rcases hcl : nav.currentLocation with _ | cl
  · rw [navigateFueled, hcl] at h
    injection h with h1 h2
    injection h1
  rcases hmkt : nav.currentMarketplace with _ | mkt
  · rw [navigateFueled, hcl, hmkt] at h
    injection h with h1 h2
    injection h1
  refine ⟨mkt, ?_⟩
  simp only [navigateFueled, hcl, hmkt] at h
  rcases hscan : fuelScan (requiredFuel nav.ship cl margin) (localFuelAvailable mkt)
      nav.ship.spaceAvailable [] trades with ⟨finalTrades, chosen⟩
  rw [hscan] at h
  rcases chosen with _ | ⟨t, fq⟩
  · rcases strict with _ | _ <;> simp at h
  simp only [] at h
  injection h with h1 h2
  injection h1 with h1
  injection h1 with h1
  obtain ⟨hfq, havail, hspace, hmem⟩ :=
    fuelScan_some_spec (requiredFuel nav.ship cl margin) (localFuelAvailable mkt)
      nav.ship.spaceAvailable [] trades finalTrades t fq hscan
  push_neg at havail hspace
  subst h1
  refine ⟨fq,
    fillCargo (finalTrades.filter
      (fun o => o.trade.destination.symbol = t.trade.destination.symbol))
      (Mentat.calculateRemainingSpaceAfterRefuel nav.ship ((fq : ℤ) : ℚ)),
    rfl, rfl, havail, ?_⟩
  · have hsub : ∀ x ∈ finalTrades.filter
        (fun o => o.trade.destination.symbol = t.trade.destination.symbol), wfOption x := by
      intro x hx
      have hx2 := List.mem_of_mem_filter hx
      rcases hmem x hx2 with h3 | h3
      · simp at h3
      · exact hwf x h3
    have hfill := fillCargo_sum_le _
      (Mentat.calculateRemainingSpaceAfterRefuel nav.ship ((fq : ℤ) : ℚ))
      (by
        simp only [Mentat.calculateRemainingSpaceAfterRefuel,
          Mentat.calculateFuelToTravelVolume]
        linarith)
      hsub
    simp only [buildRoute, List.map_cons, List.sum_cons,
      Mentat.calculateRemainingSpaceAfterRefuel, Mentat.calculateFuelToTravelVolume] at hfill ⊢
    linarith

/-! The class-bracket lookup of calculateFuelToTravel, stated the way the
spec states it: a multiplier keyed by the ship class and a penalty keyed by
the ship class that applies only when the origin is a planet, with fallback
values for unrecognized classes. -/

/-- Fuel multiplier bracket as the spec words it. -/
def specFuelMultiplier (ship : Ship) : ℚ :=
  if ship.type = ShipClass.HM_MK_III then 0.188 else 0.25

/-- Fuel penalty bracket as the spec words it: applies only when the origin
is a planet, with a per-class value and a fallback of 2. -/
def specFuelPenalty (ship : Ship) (origin : Location) : ℤ :=
  if origin.type = "PLANET" then
    if ship.type = ShipClass.HM_MK_III then 1
    else if ship.type = ShipClass.GR_MK_III then 4
    else if ship.type = ShipClass.GR_MK_II then 3
    else 2
  else 0

/-! Claim theorems. -/

/-- C1: for every route that navigate returns (it does not fail or return
empty), the FUEL quantity in the route's first cargo line does not exceed the
current marketplace's available FUEL quantity, and the sum of totalVolume
over all cargo lines (fuel line plus good lines) does not exceed the ship's
spaceAvailable at the time of the call.  The hypotheses are the data-model
invariants of the spec (positive unit volumes, nonnegative availabilities)
for the goods of the engine's ranked options. -/
theorem c1_route_respects_fuel_and_space (nav : Navigator)
    (params : Option NavigationParameters) (strict : Bool)
    (route : TradeRoute) (nav2 : Navigator)
    (hwf : ∀ t ∈ nav.tradeOptions.getD [], wfOption t)
    (h : navigate nav params strict = (.ok (some route), nav2)) :
    ∃ mkt : List Good, ∃ fuelLine : Cargo, ∃ rest : List Cargo,
      nav.currentMarketplace = some mkt ∧
      route.cargo = fuelLine :: rest ∧ fuelLine.good = "FUEL" ∧
      fuelLine.quantity ≤ localFuelAvailable mkt ∧
      (route.cargo.map Cargo.totalVolume).sum ≤ nav.ship.spaceAvailable := by
  rcases hopt : nav.tradeOptions with _ | trades0
  · rw [navigate, hopt] at h
    injection h with h1 h2
    injection h1
  simp only [navigate, hopt] at h
  by_cases hlen : trades0.length = 0
  · rw [if_pos hlen] at h
    rcases strict with _ | _ <;> simp at h
  rw [if_neg hlen] at h
  have hwf0 : ∀ t ∈ trades0, wfOption t := by
    intro t ht
    exact hwf t (by rw [hopt]; simpa using ht)
  by_cases hr : ((params.getD { range := some 0, fuelMargin := some 5 }).range.getD 0) ≠ 0
  · rw [if_pos hr] at h
    set trades1 := trades0.filter
      (fun o => decide (Mentat.validateRange nav.ship
        ((params.getD { range := some 0, fuelMargin := some 5 }).range.getD 0)
        o.trade.destination)) with htr1
    by_cases hlen1 : trades1.length = 0
    · rw [if_pos hlen1] at h
      rcases strict with _ | _ <;> simp at h
    rw [if_neg hlen1] at h
    obtain ⟨mkt, fq, rest, hmkt, hcargo, hfuel, hsum⟩ :=
      navigateFueled_route_spec nav strict _ trades1 true route nav2
        (fun t ht => hwf0 t (List.mem_of_mem_filter ht)) h
    exact ⟨mkt, _, rest, hmkt, hcargo, rfl, hfuel, hsum⟩
  · rw [if_neg hr] at h
    obtain ⟨mkt, fq, rest, hmkt, hcargo, hfuel, hsum⟩ :=
      navigateFueled_route_spec nav strict _ trades0 false route nav2 hwf0 h
    exact ⟨mkt, _, rest, hmkt, hcargo, rfl, hfuel, hsum⟩

/-- C7: fuelToTravel equals round(round(distance) * multiplier) + penalty + 1
with the class-keyed multiplier and planet-only penalty brackets, and is
always at least 1. -/
theorem c7_fuelToTravel_formula_and_min (ship : Ship) (origin destination : Location) :
    Mentat.calculateFuelToTravel ship origin destination =
      round ((round (Mentat.calculateLocationDistance origin destination) : ℚ)
        * specFuelMultiplier ship) + specFuelPenalty ship origin + 1
    ∧ 1 ≤ Mentat.calculateFuelToTravel ship origin destination := by
  have hd : 0 ≤ Mentat.calculateLocationDistance origin destination :=
    Real.sqrt_nonneg _
  have hrd : (0 : ℚ) ≤ (round (Mentat.calculateLocationDistance origin destination) : ℚ) := by
    exact_mod_cast round_nonneg _ hd
  constructor
  · simp only [Mentat.calculateFuelToTravel, specFuelMultiplier, specFuelPenalty]
    split_ifs <;> ring
  · simp only [Mentat.calculateFuelToTravel]
    have hm : (0 : ℚ) ≤ (if ship.type = ShipClass.HM_MK_III then (0.188 : ℚ) else 0.25) := by
      split <;> norm_num
    have h2 : 0 ≤ round ((round (Mentat.calculateLocationDistance origin destination) : ℚ)
        * (if ship.type = ShipClass.HM_MK_III then (0.188 : ℚ) else 0.25)) :=
      round_nonneg _ (mul_nonneg hrd hm)
    have hp : (0 : ℤ) ≤ (if ship.type = ShipClass.HM_MK_III then
          (if origin.type = "PLANET" then (1 : ℤ) else 0)
        else if ship.type = ShipClass.GR_MK_III then
          (if origin.type = "PLANET" then 4 else 0)
        else if ship.type = ShipClass.GR_MK_II then
          (if origin.type = "PLANET" then 3 else 0)
        else (if origin.type = "PLANET" then 2 else 0)) := by
      split_ifs <;> norm_num
    omega

/-! Concrete ships for the fuel-quantity claims. -/

/-- A ship with no FUEL line in its cargo. -/
def fuelTestShipEmpty : Ship :=
  { id := "s1", location := "A", x := 0, y := 0, cargo := [],
    spaceAvailable := 10, type := "ZZ", shipClass := "MK-I", maxCargo := 10,
    speed := 1, manufacturer := "m", plating := 0, weapons := 0 }

/-- A ship holding 4 units of FUEL. -/
def fuelTestShipFueled : Ship :=
  { id := "s2", location := "A", x := 0, y := 0,
    cargo := [{ good := "FUEL", quantity := 4, totalVolume := 4 }],
    spaceAvailable := 10, type := "ZZ", shipClass := "MK-I", maxCargo := 10,
    speed := 1, manufacturer := "m", plating := 0, weapons := 0 }

/-- C8 counterexample: the claim quantifies over every margin percent, but a
margin below -100 makes the multiplier negative and the result negative:
with no held fuel, required fuel 1 and margin -200 the result is -1. -/
theorem c8_counterexample_negative_result :
    Mentat.calculateFuelQuantity fuelTestShipEmpty 1 (-200) < 0 := by
  simp only [Mentat.calculateFuelQuantity, Mentat.heldFuel, fuelTestShipEmpty,
    List.filter_nil, List.head?_nil, Option.map_none, Option.getD_none]
  norm_num
  rw [show ((-1 : ℚ)) = -(1 : ℚ) from rfl, Int.ceil_neg]
  norm_num

/-- C8 amended: fuelQuantity equals
ceil(max(0, fuelToTravel - held) * (1 + margin / 100)); it is nonnegative for
every margin of at least -100 (in particular for every percentage the API
documents), and it is exactly 0 whenever the held fuel covers the required
fuel, for every margin. -/
theorem c8_fuelQuantity_amended (ship : Ship) (fuelToTravel margin : ℚ) :
    Mentat.calculateFuelQuantity ship fuelToTravel margin
      = ⌈max 0 (fuelToTravel - Mentat.heldFuel ship) * (1 + margin / 100)⌉
    ∧ (-100 ≤ margin → 0 ≤ Mentat.calculateFuelQuantity ship fuelToTravel margin)
    ∧ (fuelToTravel ≤ Mentat.heldFuel ship →
        Mentat.calculateFuelQuantity ship fuelToTravel margin = 0) := by
  have hq : (if Mentat.heldFuel ship ≥ fuelToTravel then 0
      else fuelToTravel - Mentat.heldFuel ship)
      = max 0 (fuelToTravel - Mentat.heldFuel ship) := by
    split
    next hc => rw [max_eq_left (by linarith)]
    next hc => rw [max_eq_right (by linarith)]
  refine ⟨?_, ?_, ?_⟩
  · simp only [Mentat.calculateFuelQuantity, hq]
    rw [show (1 + 0.01 * margin : ℚ) = 1 + margin / 100 by ring]
  · intro hm
    simp only [Mentat.calculateFuelQuantity, hq]
    have h1 : 0 ≤ max 0 (fuelToTravel - Mentat.heldFuel ship) := le_max_left _ _
    have h2 : (0 : ℚ) ≤ 1 + 0.01 * margin := by linarith
    exact Int.ceil_nonneg (mul_nonneg h1 h2)
  · intro hle
    simp only [Mentat.calculateFuelQuantity, hq, max_eq_left (by linarith :
      fuelToTravel - Mentat.heldFuel ship ≤ 0), zero_mul, Int.ceil_zero]

/-- C8 amended, witnessed: with no held fuel and margin 50 the result is
nonnegative, and with 4 held FUEL, 3 required and margin 50 the result is 0. -/
theorem c8_fuelQuantity_amended_witness :
    0 ≤ Mentat.calculateFuelQuantity fuelTestShipEmpty 1 50
    ∧ Mentat.calculateFuelQuantity fuelTestShipFueled 3 50 = 0 := by
  constructor
  · exact (c8_fuelQuantity_amended fuelTestShipEmpty 1 50).2.1 (by norm_num)
  · refine (c8_fuelQuantity_amended fuelTestShipFueled 3 50).2.2 ?_
    simp [Mentat.heldFuel, fuelTestShipFueled]
    norm_num

/-! Helper lemmas for evaluating the embedding on concrete scenarios. -/

/-- Evaluation helper: calculateFuelToTravel for a ship of an unrecognized
class (the fallback bracket: multiplier 0.25, planet penalty 2) over an
integer-valued distance. -/
lemma calculateFuelToTravel_default_eval (ship : Ship) (o d : Location) (n : ℤ)
    (hne1 : ¬ ship.type = ShipClass.HM_MK_III)
    (hne2 : ¬ ship.type = ShipClass.GR_MK_III)
    (hne3 : ¬ ship.type = ShipClass.GR_MK_II)
    (hd : Mentat.calculateLocationDistance o d = ((n : ℤ) : ℝ)) :
    Mentat.calculateFuelToTravel ship o d =
      round ((n : ℚ) * 0.25) + (if o.type = "PLANET" then 2 else 0) + 1 := by
  simp only [Mentat.calculateFuelToTravel, hd, round_intCast,
    if_neg hne1, if_neg hne2, if_neg hne3]

/-! Concrete scenario of the spec (section 8): location A at the origin
selling FUEL and METAL, location B at (3,4) buying METAL, a fallback-class
ship at A with space 50 and no held fuel. -/

/-- FUEL at A: purchase 1 per unit, 100 available, volume 1. -/
def fuelGoodA : Good :=
  { quantityAvailable := 100, volumePerUnit := 1, pricePerUnit := 1, spread := 0,
    purchasePricePerUnit := 1, sellPricePerUnit := 1, symbol := "FUEL" }

/-- METAL at A: purchase 5 per unit, 50 available, volume 1. -/
def metalGoodA : Good :=
  { quantityAvailable := 50, volumePerUnit := 1, pricePerUnit := 5, spread := 0,
    purchasePricePerUnit := 5, sellPricePerUnit := 6, symbol := "METAL" }

/-- METAL at B: sells for 10 per unit, volume 1. -/
def metalGoodB : Good :=
  { quantityAvailable := 50, volumePerUnit := 1, pricePerUnit := 10, spread := 0,
    purchasePricePerUnit := 10, sellPricePerUnit := 10, symbol := "METAL" }

/-- Location A, a planet at the origin with the FUEL and METAL listings. -/
def locA : Location :=
  { symbol := "A", type := "PLANET", name := "A", x := 0, y := 0,
    marketplace := some [fuelGoodA, metalGoodA] }

/-- Location B at (3, 4) with the METAL listing. -/
def locB : Location :=
  { symbol := "B", type := "PLANET", name := "B", x := 3, y := 4,
    marketplace := some [metalGoodB] }

/-- The scenario ship: at A, unrecognized class, space 50, empty cargo. -/
def shipC5 : Ship :=
  { id := "ship", location := "A", x := 0, y := 0, cargo := [],
    spaceAvailable := 50, type := "ZZ", shipClass := "MK-II", maxCargo := 50,
    speed := 1, manufacturer := "m", plating := 0, weapons := 0 }

lemma c5_distanceAB : Mentat.calculateLocationDistance locA locB = ((5 : ℤ) : ℝ) := by
  have h := calculateDistance_eq 0 0 3 4 5 (by norm_num) (by norm_num)
  simp only [Mentat.calculateLocationDistance, locA, locB]
  rw [h]
  norm_num

lemma c5_fuelToTravel : Mentat.calculateFuelToTravel shipC5 locA locB = 4 := by
  rw [calculateFuelToTravel_default_eval shipC5 locA locB 5 (by decide) (by decide)
    (by decide) c5_distanceAB]
  norm_num [round_eq, locA]

lemma c5_ppDU : Mentat.calculateProfitPerDU metalGoodB metalGoodA shipC5 locA locB 1
    = ((226 : ℚ) : ℝ) / ((5 : ℤ) : ℝ) := by
  simp only [Mentat.calculateProfitPerDU, c5_distanceAB, c5_fuelToTravel]
  rw [if_pos (by norm_num)]
  norm_num [Mentat.calculateFuelToTravelCost, Mentat.calculateGoodProfitPerVol,
    Mentat.calculatePricePerVolume, metalGoodA, metalGoodB, shipC5]

lemma c5_ppDU_pos : 0 < Mentat.calculateProfitPerDU metalGoodB metalGoodA shipC5 locA locB 1 := by
  rw [c5_ppDU]
  norm_num

/-- The single ranked option of the scenario: buy METAL at A, sell at B. -/
noncomputable def c5opt : TradeOption :=
  { trade := { destination := locB, localGood := metalGoodA, destinationGood := metalGoodB },
    profitPerDU := Mentat.calculateProfitPerDU metalGoodB metalGoodA shipC5 locA locB 1 }

/-- The engine state the constructor produces for the scenario. -/
noncomputable def c5nav : Navigator :=
  { inited := true, locations := [locA, locB], ship := shipC5,
    currentLocation := some locA, currentMarketplace := some [fuelGoodA, metalGoodA],
    currentFuelUnitCost := some 1, tradeOptions := some [c5opt] }

lemma c5_setProperties : setProperties [locA, locB] shipC5
    = .ok (some locA, some [fuelGoodA, metalGoodA], some 1) := by
  rfl

lemma c5_candidates : tradeCandidates [locA, locB] locA = [(locB, metalGoodB, metalGoodA)] := by
  rfl

lemma c5_sort : sortTradeOptions [locA, locB] shipC5 (some locA) none = .ok (some [c5opt]) := by
  have hm : locA.marketplace = some [fuelGoodA, metalGoodA] := rfl
  have hfuc : getCurrentFuelUnitCost [locA, locB] shipC5 = .ok (some 1) := rfl
  rw [sortTradeOptions]
  simp only [hm, hfuc, c5_candidates, Option.getD_some, List.filterMap_cons,
    List.filterMap_nil]
  rw [if_neg (by norm_num)]
  rw [if_pos c5_ppDU_pos]
  simp only [Mentat.sortByKey, List.insertionSort, List.orderedInsert]
  rfl

lemma c5_mkNavigator : mkNavigator [locA, locB] shipC5 = .ok c5nav := by
  have h1 : mkNavigator [locA, locB] shipC5
      = Except.bind (sortTradeOptions [locA, locB] shipC5 (some locA) none)
        (fun options => Except.ok
          { inited := true, locations := [locA, locB], ship := shipC5,
            currentLocation := some locA,
            currentMarketplace := some [fuelGoodA, metalGoodA],
            currentFuelUnitCost := some 1, tradeOptions := options }) := rfl
  rw [h1, c5_sort]
  rfl

/-- The route the spec expects for the concrete scenario. -/
def c5route : TradeRoute :=
  { destination := locB,
    cargo := [{ good := "FUEL", quantity := 5, totalVolume := 5 },
              { good := "METAL", quantity := 45, totalVolume := 45 }] }

lemma c5_requiredFuel : requiredFuel shipC5 locA 5 c5opt = 5 := by
  have hdest : c5opt.trade.destination = locB := rfl
  rw [requiredFuel, hdest, c5_fuelToTravel]
  simp only [Mentat.calculateFuelQuantity, show Mentat.heldFuel shipC5 = 0 from rfl]
  norm_num
  rw [Int.ceil_eq_iff]
  norm_num

lemma c5_scan : fuelScan (requiredFuel shipC5 locA 5)
    (localFuelAvailable [fuelGoodA, metalGoodA]) shipC5.spaceAvailable [] [c5opt]
    = ([c5opt], some (c5opt, 5)) := by
  rw [fuelScan, c5_requiredFuel]
  rw [show localFuelAvailable [fuelGoodA, metalGoodA] = 100 from rfl]
  rw [show shipC5.spaceAvailable = 50 from rfl]
  rw [if_neg (by norm_num), if_neg (by norm_num)]
  rfl

lemma c5_fill : fillCargo [c5opt] 45
    = [{ good := "METAL", quantity := 45, totalVolume := 45 }] := by
  rw [fillCargo]
  rw [if_neg (by norm_num)]
  simp only [show c5opt.trade.localGood = metalGoodA from rfl, calculateGoodQuantity_eq,
    show metalGoodA.volumePerUnit = 1 from rfl, show metalGoodA.quantityAvailable = 50 from rfl,
    show metalGoodA.symbol = "METAL" from rfl, Mentat.calculateGoodVolume]
  norm_num
  rw [fillCargo]

lemma c5_buildRoute : buildRoute shipC5 [c5opt] c5opt 5 = c5route := by
  rw [buildRoute]
  simp only [show c5opt.trade.destination = locB from rfl]
  rw [show List.filter (fun o => o.trade.destination.symbol = locB.symbol) [c5opt] = [c5opt]
    from rfl]
  rw [show Mentat.calculateRemainingSpaceAfterRefuel shipC5 ((5 : ℤ) : ℚ) = 45 by
    norm_num [Mentat.calculateRemainingSpaceAfterRefuel, Mentat.calculateFuelToTravelVolume,
      shipC5]]
  rw [c5_fill]
  simp only [c5route, Mentat.calculateFuelToTravelVolume]
  norm_num

lemma c5_navigate : navigate c5nav none false = (.ok (some c5route), c5nav) := by
  have h1 : navigate c5nav none false = navigateFueled c5nav false 5 [c5opt] false := rfl
  rw [h1]
  simp only [navigateFueled, show c5nav.currentLocation = some locA from rfl,
    show c5nav.currentMarketplace = some [fuelGoodA, metalGoodA] from rfl,
    show c5nav.ship = shipC5 from rfl]
  rw [c5_scan]
  simp only [Bool.false_eq_true, if_false]
  rw [c5_buildRoute]
  rfl

/-- C5: on the spec's concrete scenario the constructor succeeds and
navigate with default parameters returns destination B with cargo exactly
one FUEL line (5 units, volume 5) followed by one METAL line (45 units,
volume 45). -/
theorem c5_concrete_scenario :
    mkNavigator [locA, locB] shipC5 = .ok c5nav ∧
    (navigate c5nav none false).1 = .ok (some
      { destination := locB,
        cargo := [{ good := "FUEL", quantity := 5, totalVolume := 5 },
                  { good := "METAL", quantity := 45, totalVolume := 45 }] }) := by
  refine ⟨c5_mkNavigator, ?_⟩
  rw [c5_navigate]
  rfl

/-- C1, witnessed on the concrete scenario: the hypotheses hold and the
conclusion follows by the claim theorem applied to the scenario engine. -/
theorem c1_route_respects_fuel_and_space_witness :
    (∀ t ∈ c5nav.tradeOptions.getD [], wfOption t) ∧
    (∃ mkt : List Good, ∃ fuelLine : Cargo, ∃ rest : List Cargo,
      c5nav.currentMarketplace = some mkt ∧
      c5route.cargo = fuelLine :: rest ∧ fuelLine.good = "FUEL" ∧
      fuelLine.quantity ≤ localFuelAvailable mkt ∧
      (c5route.cargo.map Cargo.totalVolume).sum ≤ c5nav.ship.spaceAvailable) := by
  have hwf : ∀ t ∈ c5nav.tradeOptions.getD [], wfOption t := by
    intro t ht
    have h1 : c5nav.tradeOptions.getD [] = [c5opt] := rfl
    rw [h1, List.mem_singleton] at ht
    subst ht
    constructor
    · norm_num [c5opt, metalGoodA]
    · norm_num [c5opt, metalGoodA]
  exact ⟨hwf,
    c1_route_respects_fuel_and_space c5nav none false c5route c5nav hwf c5_navigate⟩

/-- Evaluation helper: calculateProfitPerDU over an integer nonzero distance
with a known fuel amount. -/
lemma calculateProfitPerDU_eval (aG bG : Good) (ship : Ship) (o d : Location)
    (fuc : ℚ) (n ft : ℤ) (hn : ((n : ℤ) : ℝ) ≠ 0)
    (hd : Mentat.calculateLocationDistance o d = ((n : ℤ) : ℝ))
    (hft : Mentat.calculateFuelToTravel ship o d = ft) :
    Mentat.calculateProfitPerDU aG bG ship o d fuc
      = ((Mentat.calculateGoodProfitPerVol aG bG * (ship.spaceAvailable - (ft : ℚ))
          - (ft : ℚ) * fuc : ℚ) : ℝ) / ((n : ℤ) : ℝ) := by
  simp only [Mentat.calculateProfitPerDU, hd, hft, Mentat.calculateFuelToTravelCost]
  rw [if_pos hn]

/-! Scenario for the fuel-feasibility scan: three destinations ranked by
strictly descending profit, where the top candidate needs more FUEL than the
local market offers while the second and third are feasible. -/

/-- FUEL at the scan scenario's current location: only 4 units available. -/
def scanFuelGood : Good :=
  { quantityAvailable := 4, volumePerUnit := 1, pricePerUnit := 1, spread := 0,
    purchasePricePerUnit := 1, sellPricePerUnit := 1, symbol := "FUEL" }

/-- Local G1 (bought here, sold at B1). -/
def g1Local : Good :=
  { quantityAvailable := 50, volumePerUnit := 1, pricePerUnit := 1, spread := 0,
    purchasePricePerUnit := 1, sellPricePerUnit := 1, symbol := "G1" }

/-- Local G2 (bought here, sold at B2). -/
def g2Local : Good :=
  { quantityAvailable := 50, volumePerUnit := 1, pricePerUnit := 1, spread := 0,
    purchasePricePerUnit := 1, sellPricePerUnit := 1, symbol := "G2" }

/-- Local G3 (bought here, sold at B3). -/
def g3Local : Good :=
  { quantityAvailable := 50, volumePerUnit := 1, pricePerUnit := 1, spread := 0,
    purchasePricePerUnit := 1, sellPricePerUnit := 1, symbol := "G3" }

/-- G1 as sold at B1: 100 per unit. -/
def g1Dest : Good :=
  { quantityAvailable := 1, volumePerUnit := 1, pricePerUnit := 100, spread := 0,
    purchasePricePerUnit := 100, sellPricePerUnit := 100, symbol := "G1" }

/-- G2 as sold at B2: 10 per unit. -/
def g2Dest : Good :=
  { quantityAvailable := 1, volumePerUnit := 1, pricePerUnit := 10, spread := 0,
    purchasePricePerUnit := 10, sellPricePerUnit := 10, symbol := "G2" }

/-- G3 as sold at B3: 5 per unit. -/
def g3Dest : Good :=
  { quantityAvailable := 1, volumePerUnit := 1, pricePerUnit := 5, spread := 0,
    purchasePricePerUnit := 5, sellPricePerUnit := 5, symbol := "G3" }

/-- The scan scenario's current location (a moon: no planet penalty). -/
def locHome : Location :=
  { symbol := "HOME", type := "MOON", name := "HOME", x := 0, y := 0,
    marketplace := some [scanFuelGood, g1Local, g2Local, g3Local] }

/-- Destination B1, distance 20 from HOME. -/
def locB1 : Location :=
  { symbol := "B1", type := "MOON", name := "B1", x := 0, y := 20,
    marketplace := some [g1Dest] }

/-- Destination B2, distance 4 from HOME. -/
def locB2 : Location :=
  { symbol := "B2", type := "MOON", name := "B2", x := 0, y := 4,
    marketplace := some [g2Dest] }

/-- Destination B3, distance 3 from HOME. -/
def locB3 : Location :=
  { symbol := "B3", type := "MOON", name := "B3", x := 0, y := 3,
    marketplace := some [g3Dest] }

/-- The scan scenario's ship: at HOME, fallback class, space 10, no cargo. -/
def shipScan : Ship :=
  { id := "scan", location := "HOME", x := 0, y := 0, cargo := [],
    spaceAvailable := 10, type := "ZZ", shipClass := "MK-II", maxCargo := 10,
    speed := 1, manufacturer := "m", plating := 0, weapons := 0 }

lemma scan_distanceB1 : Mentat.calculateLocationDistance locHome locB1 = ((20 : ℤ) : ℝ) := by
  have h := calculateDistance_eq 0 0 0 20 20 (by norm_num) (by norm_num)
  simp only [Mentat.calculateLocationDistance, locHome, locB1]
  rw [h]; norm_num

lemma scan_distanceB2 : Mentat.calculateLocationDistance locHome locB2 = ((4 : ℤ) : ℝ) := by
  have h := calculateDistance_eq 0 0 0 4 4 (by norm_num) (by norm_num)
  simp only [Mentat.calculateLocationDistance, locHome, locB2]
  rw [h]; norm_num

lemma scan_distanceB3 : Mentat.calculateLocationDistance locHome locB3 = ((3 : ℤ) : ℝ) := by
  have h := calculateDistance_eq 0 0 0 3 3 (by norm_num) (by norm_num)
  simp only [Mentat.calculateLocationDistance, locHome, locB3]
  rw [h]; norm_num

lemma scan_fuelB1 : Mentat.calculateFuelToTravel shipScan locHome locB1 = 6 := by
  rw [calculateFuelToTravel_default_eval shipScan locHome locB1 20 (by decide) (by decide)
    (by decide) scan_distanceB1]
  rw [show (if locHome.type = "PLANET" then (2 : ℤ) else 0) = 0 from rfl]
  norm_num [round_eq]

lemma scan_fuelB2 : Mentat.calculateFuelToTravel shipScan locHome locB2 = 2 := by
  rw [calculateFuelToTravel_default_eval shipScan locHome locB2 4 (by decide) (by decide)
    (by decide) scan_distanceB2]
  rw [show (if locHome.type = "PLANET" then (2 : ℤ) else 0) = 0 from rfl]
  norm_num [round_eq]

lemma scan_fuelB3 : Mentat.calculateFuelToTravel shipScan locHome locB3 = 2 := by
  rw [calculateFuelToTravel_default_eval shipScan locHome locB3 3 (by decide) (by decide)
    (by decide) scan_distanceB3]
  rw [show (if locHome.type = "PLANET" then (2 : ℤ) else 0) = 0 from rfl]
  norm_num [round_eq]

lemma scan_ppDU1 : Mentat.calculateProfitPerDU g1Dest g1Local shipScan locHome locB1 1
    = ((390 : ℚ) : ℝ) / ((20 : ℤ) : ℝ) := by
  rw [calculateProfitPerDU_eval g1Dest g1Local shipScan locHome locB1 1 20 6
    (by norm_num) scan_distanceB1 scan_fuelB1]
  norm_num [Mentat.calculateGoodProfitPerVol, Mentat.calculatePricePerVolume,
    g1Dest, g1Local, shipScan]

lemma scan_ppDU2 : Mentat.calculateProfitPerDU g2Dest g2Local shipScan locHome locB2 1
    = ((70 : ℚ) : ℝ) / ((4 : ℤ) : ℝ) := by
  rw [calculateProfitPerDU_eval g2Dest g2Local shipScan locHome locB2 1 4 2
    (by norm_num) scan_distanceB2 scan_fuelB2]
  norm_num [Mentat.calculateGoodProfitPerVol, Mentat.calculatePricePerVolume,
    g2Dest, g2Local, shipScan]

lemma scan_ppDU3 : Mentat.calculateProfitPerDU g3Dest g3Local shipScan locHome locB3 1
    = ((30 : ℚ) : ℝ) / ((3 : ℤ) : ℝ) := by
  rw [calculateProfitPerDU_eval g3Dest g3Local shipScan locHome locB3 1 3 2
    (by norm_num) scan_distanceB3 scan_fuelB3]
  norm_num [Mentat.calculateGoodProfitPerVol, Mentat.calculatePricePerVolume,
    g3Dest, g3Local, shipScan]

/-- Ranked option 1: HOME to B1 (score 19.5). -/
noncomputable def scanOpt1 : TradeOption :=
  { trade := { destination := locB1, localGood := g1Local, destinationGood := g1Dest },
    profitPerDU := Mentat.calculateProfitPerDU g1Dest g1Local shipScan locHome locB1 1 }

/-- Ranked option 2: HOME to B2 (score 17.5). -/
noncomputable def scanOpt2 : TradeOption :=
  { trade := { destination := locB2, localGood := g2Local, destinationGood := g2Dest },
    profitPerDU := Mentat.calculateProfitPerDU g2Dest g2Local shipScan locHome locB2 1 }

/-- Ranked option 3: HOME to B3 (score 10). -/
noncomputable def scanOpt3 : TradeOption :=
  { trade := { destination := locB3, localGood := g3Local, destinationGood := g3Dest },
    profitPerDU := Mentat.calculateProfitPerDU g3Dest g3Local shipScan locHome locB3 1 }

/-- The locations of the scan scenario. -/
def scanLocations : List Location := [locHome, locB1, locB2, locB3]

/-- The engine state the constructor produces for the scan scenario. -/
noncomputable def scanNav : Navigator :=
  { inited := true, locations := scanLocations, ship := shipScan,
    currentLocation := some locHome,
    currentMarketplace := some [scanFuelGood, g1Local, g2Local, g3Local],
    currentFuelUnitCost := some 1,
    tradeOptions := some [scanOpt1, scanOpt2, scanOpt3] }

lemma scan_candidates : tradeCandidates scanLocations locHome
    = [(locB1, g1Dest, g1Local), (locB2, g2Dest, g2Local), (locB3, g3Dest, g3Local)] := by
  rfl

lemma scan_sort : sortTradeOptions scanLocations shipScan (some locHome) none
    = .ok (some [scanOpt1, scanOpt2, scanOpt3]) := by
  have hm : locHome.marketplace = some [scanFuelGood, g1Local, g2Local, g3Local] := rfl
  have hfuc : getCurrentFuelUnitCost scanLocations shipScan = .ok (some 1) := rfl
  rw [sortTradeOptions]
  simp only [hm, hfuc, scan_candidates, Option.getD_some, List.filterMap_cons,
    List.filterMap_nil]
  rw [if_neg (by norm_num)]
  rw [if_pos (by rw [scan_ppDU1]; norm_num)]
  rw [if_pos (by rw [scan_ppDU2]; norm_num)]
  rw [if_pos (by rw [scan_ppDU3]; norm_num)]
  simp only []
  have hsorted : List.Sorted (fun a b : TradeOption => b.profitPerDU ≤ a.profitPerDU)
      [scanOpt1, scanOpt2, scanOpt3] := by
    simp only [List.sorted_cons, List.mem_cons, List.mem_singleton, List.not_mem_nil]
    refine ⟨?_, ?_, ?_⟩
    · intro b hb
      rcases hb with rfl | rfl | h
      · show scanOpt2.profitPerDU ≤ scanOpt1.profitPerDU
        simp only [scanOpt1, scanOpt2, scan_ppDU1, scan_ppDU2]
        norm_num
      · show scanOpt3.profitPerDU ≤ scanOpt1.profitPerDU
        simp only [scanOpt1, scanOpt3, scan_ppDU1, scan_ppDU3]
        norm_num
      · cases h
    · intro b hb
      rcases hb with rfl | h
      · show scanOpt3.profitPerDU ≤ scanOpt2.profitPerDU
        simp only [scanOpt2, scanOpt3, scan_ppDU2, scan_ppDU3]
        norm_num
      · cases h
    · simp [List.Sorted]
  show Except.ok (some (Mentat.sortByKey [scanOpt1, scanOpt2, scanOpt3]))
    = Except.ok (some [scanOpt1, scanOpt2, scanOpt3])
  rw [show Mentat.sortByKey [scanOpt1, scanOpt2, scanOpt3] = [scanOpt1, scanOpt2, scanOpt3]
    from List.Sorted.insertionSort_eq hsorted]

lemma scan_mkNavigator : mkNavigator scanLocations shipScan = .ok scanNav := by
  have h1 : mkNavigator scanLocations shipScan
      = Except.bind (sortTradeOptions scanLocations shipScan (some locHome) none)
        (fun options => Except.ok
          { inited := true, locations := scanLocations, ship := shipScan,
            currentLocation := some locHome,
            currentMarketplace := some [scanFuelGood, g1Local, g2Local, g3Local],
            currentFuelUnitCost := some 1, tradeOptions := options }) := rfl
  rw [h1, scan_sort]
  rfl

/-- The engine state after the first navigate call on the scan scenario: the
splice inside the fuel loop removed the top-ranked option from the stored
array. -/
noncomputable def scanNav2 : Navigator :=
  { inited := true, locations := scanLocations, ship := shipScan,
    currentLocation := some locHome,
    currentMarketplace := some [scanFuelGood, g1Local, g2Local, g3Local],
    currentFuelUnitCost := some 1,
    tradeOptions := some [scanOpt2, scanOpt3] }

/-- The route of the first navigate call: destination B3. -/
def scanRoute1 : TradeRoute :=
  { destination := locB3,
    cargo := [{ good := "FUEL", quantity := 3, totalVolume := 3 },
              { good := "G3", quantity := 7, totalVolume := 7 }] }

/-- The route of the second navigate call: destination B2. -/
def scanRoute2 : TradeRoute :=
  { destination := locB2,
    cargo := [{ good := "FUEL", quantity := 3, totalVolume := 3 },
              { good := "G2", quantity := 7, totalVolume := 7 }] }

lemma scan_req1 : requiredFuel shipScan locHome 5 scanOpt1 = 7 := by
  have hdest : scanOpt1.trade.destination = locB1 := rfl
  rw [requiredFuel, hdest, scan_fuelB1]
  simp only [Mentat.calculateFuelQuantity, show Mentat.heldFuel shipScan = 0 from rfl]
  norm_num
  rw [Int.ceil_eq_iff]
  norm_num

lemma scan_req2 : requiredFuel shipScan locHome 5 scanOpt2 = 3 := by
  have hdest : scanOpt2.trade.destination = locB2 := rfl
  rw [requiredFuel, hdest, scan_fuelB2]
  simp only [Mentat.calculateFuelQuantity, show Mentat.heldFuel shipScan = 0 from rfl]
  norm_num
  rw [Int.ceil_eq_iff]
  norm_num

lemma scan_req3 : requiredFuel shipScan locHome 5 scanOpt3 = 3 := by
  have hdest : scanOpt3.trade.destination = locB3 := rfl
  rw [requiredFuel, hdest, scan_fuelB3]
  simp only [Mentat.calculateFuelQuantity, show Mentat.heldFuel shipScan = 0 from rfl]
  norm_num
  rw [Int.ceil_eq_iff]
  norm_num

lemma scan_run1 : fuelScan (requiredFuel shipScan locHome 5) 4 10 []
    [scanOpt1, scanOpt2, scanOpt3] = ([scanOpt2, scanOpt3], some (scanOpt3, 3)) := by
  rw [fuelScan, scan_req1]
  rw [if_pos (by norm_num)]
  rw [fuelScan, scan_req3]
  rw [if_neg (by norm_num), if_neg (by norm_num)]
  rfl

lemma scan_run2 : fuelScan (requiredFuel shipScan locHome 5) 4 10 []
    [scanOpt2, scanOpt3] = ([scanOpt2, scanOpt3], some (scanOpt2, 3)) := by
  rw [fuelScan, scan_req2]
  rw [if_neg (by norm_num), if_neg (by norm_num)]
  rfl

lemma scan_fill3 : fillCargo [scanOpt3] 7
    = [{ good := "G3", quantity := 7, totalVolume := 7 }] := by
  rw [fillCargo]
  rw [if_neg (by norm_num)]
  simp only [show scanOpt3.trade.localGood = g3Local from rfl, calculateGoodQuantity_eq,
    show g3Local.volumePerUnit = 1 from rfl, show g3Local.quantityAvailable = 50 from rfl,
    show g3Local.symbol = "G3" from rfl, Mentat.calculateGoodVolume]
  norm_num
  rw [fillCargo]

lemma scan_fill2 : fillCargo [scanOpt2] 7
    = [{ good := "G2", quantity := 7, totalVolume := 7 }] := by
  rw [fillCargo]
  rw [if_neg (by norm_num)]
  simp only [show scanOpt2.trade.localGood = g2Local from rfl, calculateGoodQuantity_eq,
    show g2Local.volumePerUnit = 1 from rfl, show g2Local.quantityAvailable = 50 from rfl,
    show g2Local.symbol = "G2" from rfl, Mentat.calculateGoodVolume]
  norm_num
  rw [fillCargo]

lemma scan_build1 : buildRoute shipScan [scanOpt2, scanOpt3] scanOpt3 3 = scanRoute1 := by
  rw [buildRoute]
  simp only [show scanOpt3.trade.destination = locB3 from rfl]
  rw [show List.filter (fun o => o.trade.destination.symbol = locB3.symbol)
    [scanOpt2, scanOpt3] = [scanOpt3] from rfl]
  rw [show Mentat.calculateRemainingSpaceAfterRefuel shipScan ((3 : ℤ) : ℚ) = 7 by
    norm_num [Mentat.calculateRemainingSpaceAfterRefuel, Mentat.calculateFuelToTravelVolume,
      shipScan]]
  rw [scan_fill3]
  simp only [scanRoute1, Mentat.calculateFuelToTravelVolume]
  norm_num

lemma scan_build2 : buildRoute shipScan [scanOpt2, scanOpt3] scanOpt2 3 = scanRoute2 := by
  rw [buildRoute]
  simp only [show scanOpt2.trade.destination = locB2 from rfl]
  rw [show List.filter (fun o => o.trade.destination.symbol = locB2.symbol)
    [scanOpt2, scanOpt3] = [scanOpt2] from rfl]
  rw [show Mentat.calculateRemainingSpaceAfterRefuel shipScan ((3 : ℤ) : ℚ) = 7 by
    norm_num [Mentat.calculateRemainingSpaceAfterRefuel, Mentat.calculateFuelToTravelVolume,
      shipScan]]
  rw [scan_fill2]
  simp only [scanRoute2, Mentat.calculateFuelToTravelVolume]
  norm_num

lemma scan_navigate1 : navigate scanNav none false = (.ok (some scanRoute1), scanNav2) := by
  have h1 : navigate scanNav none false
      = navigateFueled scanNav false 5 [scanOpt1, scanOpt2, scanOpt3] false := rfl
  rw [h1]
  simp only [navigateFueled, show scanNav.currentLocation = some locHome from rfl,
    show scanNav.currentMarketplace = some [scanFuelGood, g1Local, g2Local, g3Local] from rfl,
    show scanNav.ship = shipScan from rfl,
    show localFuelAvailable [scanFuelGood, g1Local, g2Local, g3Local] = 4 from rfl,
    show shipScan.spaceAvailable = 10 from rfl]
  rw [scan_run1]
  simp only [Bool.false_eq_true, if_false]
  rw [scan_build1]
  rfl

lemma scan_navigate2 : navigate scanNav2 none false = (.ok (some scanRoute2), scanNav2) := by
  have h1 : navigate scanNav2 none false
      = navigateFueled scanNav2 false 5 [scanOpt2, scanOpt3] false := rfl
  rw [h1]
  simp only [navigateFueled, show scanNav2.currentLocation = some locHome from rfl,
    show scanNav2.currentMarketplace = some [scanFuelGood, g1Local, g2Local, g3Local] from rfl,
    show scanNav2.ship = shipScan from rfl,
    show localFuelAvailable [scanFuelGood, g1Local, g2Local, g3Local] = 4 from rfl,
    show shipScan.spaceAvailable = 10 from rfl]
  rw [scan_run2]
  simp only [Bool.false_eq_true, if_false]
  rw [scan_build2]
  rfl

/-- C2: the fuel-feasibility scan of navigate skips a feasible higher-ranked
candidate.  On the scan scenario the ranked options are, in strictly
descending profit order, option 1 (to B1, fuel-infeasible), option 2 (to B2,
feasible on both checks) and option 3 (to B3); the splice of the infeasible
option 1 followed by the loop increment skips option 2 unexamined, so
navigate picks B3 although the first feasible candidate in descending order
is the strictly more profitable option 2 to B2.  This contradicts the claim
(and the comment at the splice site) that every remaining candidate is
examined and the first survivor is chosen. -/
theorem c2_scan_skips_feasible_candidate :
    mkNavigator scanLocations shipScan = .ok scanNav ∧
    scanNav.tradeOptions = some [scanOpt1, scanOpt2, scanOpt3] ∧
    scanOpt3.profitPerDU < scanOpt2.profitPerDU ∧
    localFuelAvailable [scanFuelGood, g1Local, g2Local, g3Local]
      < ((requiredFuel shipScan locHome 5 scanOpt1 : ℤ) : ℚ) ∧
    ¬ localFuelAvailable [scanFuelGood, g1Local, g2Local, g3Local]
      < ((requiredFuel shipScan locHome 5 scanOpt2 : ℤ) : ℚ) ∧
    ¬ shipScan.spaceAvailable < ((requiredFuel shipScan locHome 5 scanOpt2 : ℤ) : ℚ) ∧
    (navigate scanNav none false).1 = .ok (some scanRoute1) ∧
    scanRoute1.destination = locB3 ∧
    scanOpt2.trade.destination = locB2 ∧
    locB2 ≠ locB3 := by
  refine ⟨scan_mkNavigator, rfl, ?_, ?_, ?_, ?_, ?_, rfl, rfl, ?_⟩
  · simp only [scanOpt2, scanOpt3, scan_ppDU2, scan_ppDU3]
    norm_num
  · rw [scan_req1, show localFuelAvailable [scanFuelGood, g1Local, g2Local, g3Local] = 4
      from rfl]
    norm_num
  · rw [scan_req2, show localFuelAvailable [scanFuelGood, g1Local, g2Local, g3Local] = 4
      from rfl]
    norm_num
  · rw [scan_req2, show shipScan.spaceAvailable = 10 from rfl]
    norm_num
  · rw [scan_navigate1]
  · intro h
    exact absurd (congrArg Location.symbol h) (by decide)

/-- C6: navigate is not a pure query.  On the scan scenario the first
navigate call splices the infeasible top option out of the stored ranked
list (the local variable aliases the array), so the engine state changes and
an identical second call returns a route to a different destination. -/
theorem c6_navigate_mutates_engine_state :
    mkNavigator scanLocations shipScan = .ok scanNav ∧
    navigate scanNav none false = (.ok (some scanRoute1), scanNav2) ∧
    scanNav2.tradeOptions ≠ scanNav.tradeOptions ∧
    navigate scanNav2 none false = (.ok (some scanRoute2), scanNav2) ∧
    scanRoute2.destination ≠ scanRoute1.destination := by
  refine ⟨scan_mkNavigator, scan_navigate1, ?_, scan_navigate2, ?_⟩
  · intro h
    have h2 := congrArg (fun o : Option (List TradeOption) => (o.getD []).length) h
    simp only [scanNav, scanNav2, Option.getD_some, List.length_cons, List.length_nil] at h2
    omega
  · intro h
    exact absurd (congrArg Location.symbol h) (by decide)

/-! The same scenario run with a params object that has a range field but no
fuelMargin field: the margin used is 0 (the calculateFuelQuantity default),
not the documented 5, so the bought FUEL drops from 3 to 2. -/

/-- The route of the margin-0 call on the scan scenario. -/
def c10route : TradeRoute :=
  { destination := locB3,
    cargo := [{ good := "FUEL", quantity := 2, totalVolume := 2 },
              { good := "G3", quantity := 8, totalVolume := 8 }] }

lemma c10_req1 : requiredFuel shipScan locHome 0 scanOpt1 = 6 := by
  have hdest : scanOpt1.trade.destination = locB1 := rfl
  rw [requiredFuel, hdest, scan_fuelB1]
  simp only [Mentat.calculateFuelQuantity, show Mentat.heldFuel shipScan = 0 from rfl]
  norm_num [Int.ceil_eq_iff]

lemma c10_req3 : requiredFuel shipScan locHome 0 scanOpt3 = 2 := by
  have hdest : scanOpt3.trade.destination = locB3 := rfl
  rw [requiredFuel, hdest, scan_fuelB3]
  simp only [Mentat.calculateFuelQuantity, show Mentat.heldFuel shipScan = 0 from rfl]
  norm_num [Int.ceil_eq_iff]

lemma c10_run : fuelScan (requiredFuel shipScan locHome 0) 4 10 []
    [scanOpt1, scanOpt2, scanOpt3] = ([scanOpt2, scanOpt3], some (scanOpt3, 2)) := by
  rw [fuelScan, c10_req1]
  rw [if_pos (by norm_num)]
  rw [fuelScan, c10_req3]
  rw [if_neg (by norm_num), if_neg (by norm_num)]
  rfl

lemma c10_fill : fillCargo [scanOpt3] 8
    = [{ good := "G3", quantity := 8, totalVolume := 8 }] := by
  rw [fillCargo]
  rw [if_neg (by norm_num)]
  simp only [show scanOpt3.trade.localGood = g3Local from rfl, calculateGoodQuantity_eq,
    show g3Local.volumePerUnit = 1 from rfl, show g3Local.quantityAvailable = 50 from rfl,
    show g3Local.symbol = "G3" from rfl, Mentat.calculateGoodVolume]
  norm_num
  rw [fillCargo]

lemma c10_build : buildRoute shipScan [scanOpt2, scanOpt3] scanOpt3 2 = c10route := by
  rw [buildRoute]
  simp only [show scanOpt3.trade.destination = locB3 from rfl]
  rw [show List.filter (fun o => o.trade.destination.symbol = locB3.symbol)
    [scanOpt2, scanOpt3] = [scanOpt3] from rfl]
  rw [show Mentat.calculateRemainingSpaceAfterRefuel shipScan ((2 : ℤ) : ℚ) = 8 by
    norm_num [Mentat.calculateRemainingSpaceAfterRefuel, Mentat.calculateFuelToTravelVolume,
      shipScan]]
  rw [c10_fill]
  simp only [c10route, Mentat.calculateFuelToTravelVolume]
  norm_num

lemma c10_navigate : navigate scanNav (some { range := some 0, fuelMargin := none }) false
    = (.ok (some c10route), scanNav2) := by
  have h1 : navigate scanNav (some { range := some 0, fuelMargin := none }) false
      = navigateFueled scanNav false 0 [scanOpt1, scanOpt2, scanOpt3] false := rfl
  rw [h1]
  simp only [navigateFueled, show scanNav.currentLocation = some locHome from rfl,
    show scanNav.currentMarketplace = some [scanFuelGood, g1Local, g2Local, g3Local] from rfl,
    show scanNav.ship = shipScan from rfl,
    show localFuelAvailable [scanFuelGood, g1Local, g2Local, g3Local] = 4 from rfl,
    show shipScan.spaceAvailable = 10 from rfl]
  rw [c10_run]
  simp only [Bool.false_eq_true, if_false]
  rw [c10_build]
  rfl

/-- C10: the documented defaults (range 0, fuelMargin 5) apply only when the
params object is omitted entirely.  A params object with a range field but
no fuelMargin field makes navigate compute fuel with margin 0 (the default
of calculateFuelQuantity), not 5; the third conjunct exhibits an engine on
which the two margins produce different routes. -/
theorem c10_partial_params_margin_zero :
    (∀ (nav : Navigator) (r : ℚ) (strict : Bool),
      navigate nav (some { range := some r, fuelMargin := none }) strict
        = navigate nav (some { range := some r, fuelMargin := some 0 }) strict) ∧
    (∀ (nav : Navigator) (strict : Bool),
      navigate nav none strict
        = navigate nav (some { range := some 0, fuelMargin := some 5 }) strict) ∧
    (navigate scanNav (some { range := some 0, fuelMargin := none }) false).1
      ≠ (navigate scanNav none false).1 := by
  refine ⟨fun nav r strict => rfl, fun nav strict => rfl, ?_⟩
  rw [c10_navigate, scan_navigate1]
  intro h
  injection h with h
  injection h with h
  have h2 := congrArg (fun rt : TradeRoute => rt.cargo) h
  norm_num [c10route, scanRoute1, Cargo.mk.injEq] at h2

/-! Scenario for the rebuild claim: an engine built at L1 with one profitable
option, whose ship is then moved to L3, a location with an EMPTY marketplace.
The guard of sortTradeOptions returns early without touching the stored
list, which therefore stays the (now stale) list computed for L1. -/

/-- The local good at L1. -/
def gStale : Good :=
  { quantityAvailable := 5, volumePerUnit := 1, pricePerUnit := 1, spread := 0,
    purchasePricePerUnit := 1, sellPricePerUnit := 1, symbol := "G" }

/-- The same good as sold at L2. -/
def gStaleDest : Good :=
  { quantityAvailable := 1, volumePerUnit := 1, pricePerUnit := 10, spread := 0,
    purchasePricePerUnit := 10, sellPricePerUnit := 10, symbol := "G" }

/-- L1: the original current location (no FUEL listed, unit cost null). -/
def locL1 : Location :=
  { symbol := "L1", type := "MOON", name := "L1", x := 0, y := 0,
    marketplace := some [gStale] }

/-- L2: the destination of the single profitable option. -/
def locL2 : Location :=
  { symbol := "L2", type := "MOON", name := "L2", x := 0, y := 3,
    marketplace := some [gStaleDest] }

/-- L3: a location with an empty marketplace array. -/
def locL3 : Location :=
  { symbol := "L3", type := "MOON", name := "L3", x := 0, y := 1,
    marketplace := some [] }

/-- The ship at L1. -/
def shipL1 : Ship :=
  { id := "stale", location := "L1", x := 0, y := 0, cargo := [],
    spaceAvailable := 10, type := "ZZ", shipClass := "MK-II", maxCargo := 10,
    speed := 1, manufacturer := "m", plating := 0, weapons := 0 }

/-- The same ship after moving to L3. -/
def shipL3 : Ship :=
  { id := "stale", location := "L3", x := 0, y := 1, cargo := [],
    spaceAvailable := 10, type := "ZZ", shipClass := "MK-II", maxCargo := 10,
    speed := 1, manufacturer := "m", plating := 0, weapons := 0 }

/-- The locations of the stale-list scenario. -/
def staleLocations : List Location := [locL1, locL2, locL3]

lemma stale_distance : Mentat.calculateLocationDistance locL1 locL2 = ((3 : ℤ) : ℝ) := by
  have h := calculateDistance_eq 0 0 0 3 3 (by norm_num) (by norm_num)
  simp only [Mentat.calculateLocationDistance, locL1, locL2]
  rw [h]; norm_num

lemma stale_fuel : Mentat.calculateFuelToTravel shipL1 locL1 locL2 = 2 := by
  rw [calculateFuelToTravel_default_eval shipL1 locL1 locL2 3 (by decide) (by decide)
    (by decide) stale_distance]
  rw [show (if locL1.type = "PLANET" then (2 : ℤ) else 0) = 0 from rfl]
  norm_num [round_eq]

lemma stale_ppDU : Mentat.calculateProfitPerDU gStaleDest gStale shipL1 locL1 locL2 0
    = ((72 : ℚ) : ℝ) / ((3 : ℤ) : ℝ) := by
  rw [calculateProfitPerDU_eval gStaleDest gStale shipL1 locL1 locL2 0 3 2
    (by norm_num) stale_distance stale_fuel]
  norm_num [Mentat.calculateGoodProfitPerVol, Mentat.calculatePricePerVolume,
    gStaleDest, gStale, shipL1]

/-- The single ranked option of the stale-list scenario (the fuel unit cost
is null at L1, which multiplies as 0). -/
noncomputable def staleOpt : TradeOption :=
  { trade := { destination := locL2, localGood := gStale, destinationGood := gStaleDest },
    profitPerDU := Mentat.calculateProfitPerDU gStaleDest gStale shipL1 locL1 locL2 0 }

/-- The engine the constructor produces at L1. -/
noncomputable def staleNav : Navigator :=
  { inited := true, locations := staleLocations, ship := shipL1,
    currentLocation := some locL1, currentMarketplace := some [gStale],
    currentFuelUnitCost := none, tradeOptions := some [staleOpt] }

/-- The engine after updateShipData moves the ship to L3: the derived fields
follow the new location, the ranked list does not. -/
noncomputable def staleNav2 : Navigator :=
  { inited := true, locations := staleLocations, ship := shipL3,
    currentLocation := some locL3, currentMarketplace := some [],
    currentFuelUnitCost := none, tradeOptions := some [staleOpt] }

lemma stale_sort : sortTradeOptions staleLocations shipL1 (some locL1) none
    = .ok (some [staleOpt]) := by
  have hm : locL1.marketplace = some [gStale] := rfl
  have hfuc : getCurrentFuelUnitCost staleLocations shipL1 = .ok none := rfl
  have hcand : tradeCandidates staleLocations locL1 = [(locL2, gStaleDest, gStale)] := rfl
  rw [sortTradeOptions]
  simp only [hm, hfuc, hcand, Option.getD_none, List.filterMap_cons, List.filterMap_nil]
  rw [if_neg (by norm_num)]
  rw [if_pos (by rw [stale_ppDU]; norm_num)]
  simp only [Mentat.sortByKey, List.insertionSort, List.orderedInsert]
  rfl

lemma stale_mkNavigator : mkNavigator staleLocations shipL1 = .ok staleNav := by
  have h1 : mkNavigator staleLocations shipL1
      = Except.bind (sortTradeOptions staleLocations shipL1 (some locL1) none)
        (fun options => Except.ok
          { inited := true, locations := staleLocations, ship := shipL1,
            currentLocation := some locL1, currentMarketplace := some [gStale],
            currentFuelUnitCost := none, tradeOptions := options }) := rfl
  rw [h1, stale_sort]
  rfl

lemma stale_update : updateShipData staleNav shipL3 = .ok staleNav2 := by
  have h1 : updateShipData staleNav shipL3
      = Except.bind (sortTradeOptions staleLocations shipL3 (some locL3) (some [staleOpt]))
        (fun options => Except.ok
          { inited := true, locations := staleLocations, ship := shipL3,
            currentLocation := some locL3, currentMarketplace := some [],
            currentFuelUnitCost := none, tradeOptions := options }) := rfl
  have h2 : sortTradeOptions staleLocations shipL3 (some locL3) (some [staleOpt])
      = .ok (some [staleOpt]) := rfl
  rw [h1, h2]
  rfl

/-- C3: a rebuild whose current location has an empty marketplace does NOT
set the ranked list to the empty list and does NOT discard the previous set:
the early return of sortTradeOptions leaves the stale list computed for the
previous location in place.  This contradicts the claim (ranked list becomes
empty; previous set entirely discarded) and the build method's own
documentation (it provides the trades from the ship's location). -/
theorem c3_stale_trade_list_on_rebuild :
    mkNavigator staleLocations shipL1 = .ok staleNav ∧
    updateShipData staleNav shipL3 = .ok staleNav2 ∧
    staleNav2.currentLocation = some locL3 ∧
    locL3.marketplace = some [] ∧
    staleNav2.tradeOptions = staleNav.tradeOptions ∧
    staleNav.tradeOptions = some [staleOpt] ∧
    staleNav2.tradeOptions ≠ some [] := by
  refine ⟨stale_mkNavigator, stale_update, rfl, rfl, rfl, rfl, ?_⟩
  intro h
  have h2 := congrArg (fun o : Option (List TradeOption) => (o.getD [staleOpt]).length) h
  simp only [staleNav2, Option.getD_some, List.length_cons, List.length_nil] at h2
  omega

/-! Scenario for the missing-marketplace claim. -/

/-- A location with no marketplace key at all. -/
def locNoMkt : Location :=
  { symbol := "N", type := "MOON", name := "N", x := 0, y := 0, marketplace := none }

/-- A ship at the marketplace-less location. -/
def shipNoMkt : Ship :=
  { id := "n", location := "N", x := 0, y := 0, cargo := [],
    spaceAvailable := 10, type := "ZZ", shipClass := "MK-II", maxCargo := 10,
    speed := 1, manufacturer := "m", plating := 0, weapons := 0 }

/-- A location whose marketplace is present but empty. -/
def locEmptyMkt : Location :=
  { symbol := "E", type := "MOON", name := "E", x := 0, y := 0, marketplace := some [] }

/-- A ship at the empty-marketplace location. -/
def shipEmptyMkt : Ship :=
  { id := "e", location := "E", x := 0, y := 0, cargo := [],
    spaceAvailable := 10, type := "ZZ", shipClass := "MK-II", maxCargo := 10,
    speed := 1, manufacturer := "m", plating := 0, weapons := 0 }

/-- The engine the constructor produces at the empty-marketplace location:
the build's early return leaves the trade-option field undefined. -/
def emptyMktNav : Navigator :=
  { inited := true, locations := [locEmptyMkt], ship := shipEmptyMkt,
    currentLocation := some locEmptyMkt, currentMarketplace := some [],
    currentFuelUnitCost := none, tradeOptions := none }

/-- C4: a current location without marketplace does not degrade to the empty
result.  With the marketplace key absent, construction itself throws a
TypeError (getCurrentFuelUnitCost reads .length of undefined); with an empty
marketplace array, construction succeeds but leaves the trade-option field
undefined, and navigate throws a TypeError reading its .length — in lenient
and in strict mode alike, so neither the empty result nor the
NoProfitableTrade error of the claim is ever produced. -/
theorem c4_type_error_on_missing_marketplace :
    mkNavigator [locNoMkt] shipNoMkt = .error .typeError ∧
    mkNavigator [locEmptyMkt] shipEmptyMkt = .ok emptyMktNav ∧
    (navigate emptyMktNav none false).1 = .error .typeError ∧
    (navigate emptyMktNav none true).1 = .error .typeError := by
  exact ⟨rfl, rfl, rfl, rfl⟩

/-! Scenario for the zero-quantity cargo-line claim: the chosen destination
offers two goods; after the FUEL purchase only 2 volume units remain, less
than the 4-volume unit of the more profitable good, so that good gets a
zero-quantity line and the walk continues to the cheaper good. -/

/-- FUEL at the zero-line scenario's current location. -/
def fuelGoodZ : Good :=
  { quantityAvailable := 100, volumePerUnit := 1, pricePerUnit := 1, spread := 0,
    purchasePricePerUnit := 1, sellPricePerUnit := 1, symbol := "FUEL" }

/-- Local GX: volume 4 per unit. -/
def gxLocal : Good :=
  { quantityAvailable := 10, volumePerUnit := 4, pricePerUnit := 1, spread := 0,
    purchasePricePerUnit := 1, sellPricePerUnit := 1, symbol := "GX" }

/-- Local GY: volume 1 per unit, 2 available. -/
def gyLocal : Good :=
  { quantityAvailable := 2, volumePerUnit := 1, pricePerUnit := 1, spread := 0,
    purchasePricePerUnit := 1, sellPricePerUnit := 1, symbol := "GY" }

/-- GX at the destination: sells for 100. -/
def gxDest : Good :=
  { quantityAvailable := 1, volumePerUnit := 4, pricePerUnit := 100, spread := 0,
    purchasePricePerUnit := 100, sellPricePerUnit := 100, symbol := "GX" }

/-- GY at the destination: sells for 2. -/
def gyDest : Good :=
  { quantityAvailable := 1, volumePerUnit := 1, pricePerUnit := 2, spread := 0,
    purchasePricePerUnit := 2, sellPricePerUnit := 2, symbol := "GY" }

/-- The zero-line scenario's current location. -/
def locZHome : Location :=
  { symbol := "ZH", type := "MOON", name := "ZH", x := 0, y := 0,
    marketplace := some [fuelGoodZ, gxLocal, gyLocal] }

/-- The zero-line scenario's destination, at distance 3. -/
def locZDest : Location :=
  { symbol := "ZD", type := "MOON", name := "ZD", x := 0, y := 3,
    marketplace := some [gxDest, gyDest] }

/-- The zero-line scenario's ship: space 5. -/
def shipZ : Ship :=
  { id := "z", location := "ZH", x := 0, y := 0, cargo := [],
    spaceAvailable := 5, type := "ZZ", shipClass := "MK-II", maxCargo := 5,
    speed := 1, manufacturer := "m", plating := 0, weapons := 0 }

lemma z_distance : Mentat.calculateLocationDistance locZHome locZDest = ((3 : ℤ) : ℝ) := by
  have h := calculateDistance_eq 0 0 0 3 3 (by norm_num) (by norm_num)
  simp only [Mentat.calculateLocationDistance, locZHome, locZDest]
  rw [h]; norm_num

lemma z_fuel : Mentat.calculateFuelToTravel shipZ locZHome locZDest = 2 := by
  rw [calculateFuelToTravel_default_eval shipZ locZHome locZDest 3 (by decide) (by decide)
    (by decide) z_distance]
  rw [show (if locZHome.type = "PLANET" then (2 : ℤ) else 0) = 0 from rfl]
  norm_num [round_eq]

lemma z_ppDUX : Mentat.calculateProfitPerDU gxDest gxLocal shipZ locZHome locZDest 1
    = ((289 / 4 : ℚ) : ℝ) / ((3 : ℤ) : ℝ) := by
  rw [calculateProfitPerDU_eval gxDest gxLocal shipZ locZHome locZDest 1 3 2
    (by norm_num) z_distance z_fuel]
  norm_num [Mentat.calculateGoodProfitPerVol, Mentat.calculatePricePerVolume,
    gxDest, gxLocal, shipZ]

lemma z_ppDUY : Mentat.calculateProfitPerDU gyDest gyLocal shipZ locZHome locZDest 1
    = ((1 : ℚ) : ℝ) / ((3 : ℤ) : ℝ) := by
  rw [calculateProfitPerDU_eval gyDest gyLocal shipZ locZHome locZDest 1 3 2
    (by norm_num) z_distance z_fuel]
  norm_num [Mentat.calculateGoodProfitPerVol, Mentat.calculatePricePerVolume,
    gyDest, gyLocal, shipZ]

/-- Ranked option X of the zero-line scenario. -/
noncomputable def zOptX : TradeOption :=
  { trade := { destination := locZDest, localGood := gxLocal, destinationGood := gxDest },
    profitPerDU := Mentat.calculateProfitPerDU gxDest gxLocal shipZ locZHome locZDest 1 }

/-- Ranked option Y of the zero-line scenario. -/
noncomputable def zOptY : TradeOption :=
  { trade := { destination := locZDest, localGood := gyLocal, destinationGood := gyDest },
    profitPerDU := Mentat.calculateProfitPerDU gyDest gyLocal shipZ locZHome locZDest 1 }

/-- The engine of the zero-line scenario. -/
noncomputable def zNav : Navigator :=
  { inited := true, locations := [locZHome, locZDest], ship := shipZ,
    currentLocation := some locZHome,
    currentMarketplace := some [fuelGoodZ, gxLocal, gyLocal],
    currentFuelUnitCost := some 1, tradeOptions := some [zOptX, zOptY] }

/-- The route of the zero-line scenario: the GX line has quantity 0 and is
followed by a further line. -/
def zRoute : TradeRoute :=
  { destination := locZDest,
    cargo := [{ good := "FUEL", quantity := 3, totalVolume := 3 },
              { good := "GX", quantity := 0, totalVolume := 0 },
              { good := "GY", quantity := 2, totalVolume := 2 }] }

lemma z_sort : sortTradeOptions [locZHome, locZDest] shipZ (some locZHome) none
    = .ok (some [zOptX, zOptY]) := by
  have hm : locZHome.marketplace = some [fuelGoodZ, gxLocal, gyLocal] := rfl
  have hfuc : getCurrentFuelUnitCost [locZHome, locZDest] shipZ = .ok (some 1) := rfl
  have hcand : tradeCandidates [locZHome, locZDest] locZHome
      = [(locZDest, gxDest, gxLocal), (locZDest, gyDest, gyLocal)] := rfl
  rw [sortTradeOptions]
  simp only [hm, hfuc, hcand, Option.getD_some, List.filterMap_cons, List.filterMap_nil]
  rw [if_neg (by norm_num)]
  rw [if_pos (by rw [z_ppDUX]; norm_num)]
  rw [if_pos (by rw [z_ppDUY]; norm_num)]
  simp only []
  have hsorted : List.Sorted (fun a b : TradeOption => b.profitPerDU ≤ a.profitPerDU)
      [zOptX, zOptY] := by
    simp only [List.sorted_cons, List.mem_singleton, List.not_mem_nil]
    refine ⟨?_, ?_, ?_⟩
    · intro b hb
      rcases hb with rfl
      show zOptY.profitPerDU ≤ zOptX.profitPerDU
      simp only [zOptX, zOptY, z_ppDUX, z_ppDUY]
      norm_num
    · intro b hb
      cases hb
    · simp [List.Sorted]
  show Except.ok (some (Mentat.sortByKey [zOptX, zOptY])) = Except.ok (some [zOptX, zOptY])
  rw [show Mentat.sortByKey [zOptX, zOptY] = [zOptX, zOptY]
    from List.Sorted.insertionSort_eq hsorted]

lemma z_mkNavigator : mkNavigator [locZHome, locZDest] shipZ = .ok zNav := by
  have h1 : mkNavigator [locZHome, locZDest] shipZ
      = Except.bind (sortTradeOptions [locZHome, locZDest] shipZ (some locZHome) none)
        (fun options => Except.ok
          { inited := true, locations := [locZHome, locZDest], ship := shipZ,
            currentLocation := some locZHome,
            currentMarketplace := some [fuelGoodZ, gxLocal, gyLocal],
            currentFuelUnitCost := some 1, tradeOptions := options }) := rfl
  rw [h1, z_sort]
  rfl

lemma z_req : requiredFuel shipZ locZHome 5 zOptX = 3 := by
  have hdest : zOptX.trade.destination = locZDest := rfl
  rw [requiredFuel, hdest, z_fuel]
  simp only [Mentat.calculateFuelQuantity, show Mentat.heldFuel shipZ = 0 from rfl]
  norm_num
  rw [Int.ceil_eq_iff]
  norm_num

lemma z_run : fuelScan (requiredFuel shipZ locZHome 5) 100 5 [] [zOptX, zOptY]
    = ([zOptX, zOptY], some (zOptX, 3)) := by
  rw [fuelScan, z_req]
  rw [if_neg (by norm_num), if_neg (by norm_num)]
  rfl

lemma z_fill : fillCargo [zOptX, zOptY] 2
    = [{ good := "GX", quantity := 0, totalVolume := 0 },
       { good := "GY", quantity := 2, totalVolume := 2 }] := by
  rw [fillCargo]
  rw [if_neg (by norm_num)]
  simp only [show zOptX.trade.localGood = gxLocal from rfl, calculateGoodQuantity_eq,
    show gxLocal.volumePerUnit = 4 from rfl, show gxLocal.quantityAvailable = 10 from rfl,
    show gxLocal.symbol = "GX" from rfl, Mentat.calculateGoodVolume]
  norm_num
  rw [fillCargo]
  rw [if_neg (by norm_num)]
  simp only [show zOptY.trade.localGood = gyLocal from rfl, calculateGoodQuantity_eq,
    show gyLocal.volumePerUnit = 1 from rfl, show gyLocal.quantityAvailable = 2 from rfl,
    show gyLocal.symbol = "GY" from rfl, Mentat.calculateGoodVolume]
  norm_num
  rw [fillCargo]

lemma z_build : buildRoute shipZ [zOptX, zOptY] zOptX 3 = zRoute := by
  rw [buildRoute]
  simp only [show zOptX.trade.destination = locZDest from rfl]
  rw [show List.filter (fun o => o.trade.destination.symbol = locZDest.symbol)
    [zOptX, zOptY] = [zOptX, zOptY] from rfl]
  rw [show Mentat.calculateRemainingSpaceAfterRefuel shipZ ((3 : ℤ) : ℚ) = 2 by
    norm_num [Mentat.calculateRemainingSpaceAfterRefuel, Mentat.calculateFuelToTravelVolume,
      shipZ]]
  rw [z_fill]
  simp only [zRoute, Mentat.calculateFuelToTravelVolume]
  norm_num

lemma z_navigate : navigate zNav none false = (.ok (some zRoute), zNav) := by
  have h1 : navigate zNav none false
      = navigateFueled zNav false 5 [zOptX, zOptY] false := rfl
  rw [h1]
  simp only [navigateFueled, show zNav.currentLocation = some locZHome from rfl,
    show zNav.currentMarketplace = some [fuelGoodZ, gxLocal, gyLocal] from rfl,
    show zNav.ship = shipZ from rfl,
    show localFuelAvailable [fuelGoodZ, gxLocal, gyLocal] = 100 from rfl,
    show shipZ.spaceAvailable = 5 from rfl]
  rw [z_run]
  simp only [Bool.false_eq_true, if_false]
  rw [z_build]
  rfl

/-- C9: the cargo loop appends zero-quantity lines.  Whenever the loop
reaches a candidate while the remaining space is positive but smaller than
the candidate good's unit volume (and its availability is nonnegative), it
appends a line with quantity 0 and volume 0 and continues to the next
candidate with the space unchanged; such lines are never filtered: on the
concrete engine, navigate returns a route whose cargo contains the
zero-quantity GX line followed by a further line. -/
theorem c9_zero_quantity_cargo_lines :
    (∀ (t : TradeOption) (rest : List TradeOption) (rs : ℚ),
      0 < rs → rs < t.trade.localGood.volumePerUnit →
      0 ≤ t.trade.localGood.quantityAvailable →
      fillCargo (t :: rest) rs
        = { good := t.trade.localGood.symbol, quantity := 0, totalVolume := 0 }
            :: fillCargo rest rs) ∧
    (navigate zNav none false).1 = .ok (some zRoute) := by
  constructor
  · intro t rest rs h1 h2 h3
    have hv : 0 < t.trade.localGood.volumePerUnit := lt_trans h1 h2
    rw [fillCargo]
    rw [if_neg (by linarith)]
    rw [calculateGoodQuantity_eq]
    have hfloor : ⌊rs / t.trade.localGood.volumePerUnit⌋ = 0 := by
      rw [Int.floor_eq_zero_iff]
      constructor
      · positivity
      · rw [div_lt_one hv]
        exact h2
    rw [hfloor]
    simp only [Int.cast_zero]
    rw [if_neg (not_lt.mpr h3)]
    simp only [Mentat.calculateGoodVolume, zero_mul, sub_zero]
  · rw [z_navigate]

/-- C9, witnessed: the zero-line step of the cargo loop at a concrete
candidate whose unit volume 4 exceeds the remaining space 2. -/
theorem c9_zero_quantity_cargo_lines_witness :
    (0 < (2 : ℚ) ∧ (2 : ℚ) < zOptX.trade.localGood.volumePerUnit
      ∧ 0 ≤ zOptX.trade.localGood.quantityAvailable) ∧
    fillCargo [zOptX, zOptY] 2
      = { good := zOptX.trade.localGood.symbol, quantity := 0, totalVolume := 0 }
          :: fillCargo [zOptY] 2 := by
  have h1 : (0 : ℚ) < 2 := by norm_num
  have h2 : (2 : ℚ) < zOptX.trade.localGood.volumePerUnit := by
    rw [show zOptX.trade.localGood = gxLocal from rfl]
    norm_num [gxLocal]
  have h3 : (0 : ℚ) ≤ zOptX.trade.localGood.quantityAvailable := by
    rw [show zOptX.trade.localGood = gxLocal from rfl]
    norm_num [gxLocal]
  exact ⟨⟨h1, h2, h3⟩, c9_zero_quantity_cargo_lines.1 zOptX [zOptY] 2 h1 h2 h3⟩

end SpacingGuild
